import Mathlib

/-!
# SceneManager: texture registry, material lookup and transform composition

A shallow embedding of `Source/SceneManager.cpp` / `Source/SceneManager.h`.

* The object's fields become the structure `SceneManager`; the OpenGL context
  it talks to becomes `GLState`; the shader manager and the mesh object become
  a trace of `PipelineOp`s, oldest first.
* `m_textureIDs` is the C array of 16 entries, `Fin 16 → TEXTURE_INFO`.  An
  access `m_textureIDs[i]` with `16 ≤ i` is outside the array: the model stops
  there with `Fault.outOfBounds i`.
* `float` is an arbitrary field `α` with the operations of `FloatOps`; the
  theorems on transforms take `α = ℝ` (exact arithmetic, no rounding).
* `std::cout` output is not modelled.
-/

set_option linter.unusedVariables false

namespace Scene

/-! ## Data model -/

/-- Ways in which the C++ program leaves defined behaviour. -/
inductive Fault where
  /-- access to `m_textureIDs[index]` with `index` outside `0..15` -/
  | outOfBounds (index : Nat)
  /-- call through a NULL `m_pShaderManager` -/
  | nullPointer
  deriving DecidableEq, Repr

/-- The struct `SceneManager::TEXTURE_INFO`; `ID` is a `uint32_t`. -/
structure TEXTURE_INFO where
  tag : String
  ID : Nat
  deriving DecidableEq, Repr

/-- The type `glm::vec2`. -/
structure vec2 (α : Type) where
  x : α
  y : α
  deriving DecidableEq, Repr

/-- The type `glm::vec3`. -/
structure vec3 (α : Type) where
  x : α
  y : α
  z : α
  deriving DecidableEq, Repr

/-- The type `glm::vec4`. -/
structure vec4 (α : Type) where
  x : α
  y : α
  z : α
  w : α
  deriving DecidableEq, Repr

/-- The type `glm::mat4`: four columns, `m[c]` being column `c`. -/
structure mat4 (α : Type) where
  c0 : vec4 α
  c1 : vec4 α
  c2 : vec4 α
  c3 : vec4 α
  deriving DecidableEq, Repr

/-- The struct `SceneManager::OBJECT_MATERIAL`. -/
structure OBJECT_MATERIAL (α : Type) where
  ambientColor : vec3 α
  ambientStrength : α
  diffuseColor : vec3 α
  specularColor : vec3 α
  shininess : α
  tag : String
  deriving DecidableEq, Repr

/-- The fields of `class SceneManager` that the modelled methods use.
`m_pShaderManager` records whether the pointer is non-NULL. -/
structure SceneManager (α : Type) where
  m_pShaderManager : Bool
  m_loadedTextures : Nat
  m_textureIDs : Fin 16 → TEXTURE_INFO
  m_objectMaterials : List (OBJECT_MATERIAL α)

/-- The value `uint32_t(-1)` the constructor stores in every `ID`. -/
def UINT32_MAX : Nat := 4294967295

/-- Conversion of a `uint32_t` to `int`, as in `textureID = m_textureIDs[index].ID`. -/
def toInt32 (n : Nat) : Int :=
  if n % 4294967296 < 2147483648 then (n % 4294967296 : Nat) else (n % 4294967296 : Nat) - 4294967296

/-! ## External collaborators: GLM, OpenGL, stb_image, the shader pipeline -/

/-- Operations on `float` beyond field arithmetic that GLM calls. -/
structure FloatOps (α : Type) where
  cos : α → α
  sin : α → α
  inversesqrt : α → α
  pi : α

namespace glm

variable {α : Type} [Field α]

/-- Modelled from the spec: GLM is a library outside the repository; this is
`vec4 + vec4`, componentwise. -/
def vec4.add (a b : vec4 α) : vec4 α :=
  ⟨a.x + b.x, a.y + b.y, a.z + b.z, a.w + b.w⟩

/-- Modelled from the spec: GLM is a library outside the repository; this is
`vec4 * scalar`, componentwise. -/
def vec4.scale (a : vec4 α) (k : α) : vec4 α :=
  ⟨a.x * k, a.y * k, a.z * k, a.w * k⟩

/-- Modelled from the spec: GLM is a library outside the repository; this is
`mat4 * vec4`, the combination of the columns of `m` with the components of `v`. -/
def mat4.mulVec (m : mat4 α) (v : vec4 α) : vec4 α :=
  vec4.add (vec4.add (vec4.add (vec4.scale m.c0 v.x) (vec4.scale m.c1 v.y))
    (vec4.scale m.c2 v.z)) (vec4.scale m.c3 v.w)

/-- Modelled from the spec: GLM is a library outside the repository; this is
`mat4 * mat4`, the matrix product: column `j` of the result is `a` applied to
column `j` of `b`. -/
def mat4.mul (a b : mat4 α) : mat4 α :=
  ⟨mat4.mulVec a b.c0, mat4.mulVec a b.c1, mat4.mulVec a b.c2, mat4.mulVec a b.c3⟩

instance : Mul (mat4 α) := ⟨mat4.mul⟩

/-- Modelled from the spec: GLM is a library outside the repository; this is
`glm::mat4(1.0f)`, the identity matrix. -/
def mat4.identity : mat4 α :=
  ⟨⟨1, 0, 0, 0⟩, ⟨0, 1, 0, 0⟩, ⟨0, 0, 1, 0⟩, ⟨0, 0, 0, 1⟩⟩

/-- Modelled from the spec: GLM is a library outside the repository; this is
`glm::radians`, which converts degrees to radians. -/
def radians (F : FloatOps α) (degrees : α) : α :=
  degrees * (F.pi / 180)

/-- Modelled from the spec: GLM is a library outside the repository; this is
`glm::dot` on `vec3`. -/
def dot (a b : vec3 α) : α :=
  a.x * b.x + a.y * b.y + a.z * b.z

/-- Modelled from the spec: GLM is a library outside the repository; this is
`glm::normalize` on `vec3`, `v * inversesqrt(dot(v, v))`. -/
def normalize (F : FloatOps α) (v : vec3 α) : vec3 α :=
  ⟨v.x * F.inversesqrt (dot v v), v.y * F.inversesqrt (dot v v), v.z * F.inversesqrt (dot v v)⟩

/-- Modelled from the spec: GLM is a library outside the repository; this is
`glm::translate(m, v)`: `m` with its last column replaced by
`m[0] * v[0] + m[1] * v[1] + m[2] * v[2] + m[3]`. -/
def translate (m : mat4 α) (v : vec3 α) : mat4 α :=
  { m with
    c3 := vec4.add (vec4.add (vec4.add (vec4.scale m.c0 v.x) (vec4.scale m.c1 v.y))
      (vec4.scale m.c2 v.z)) m.c3 }

/-- Modelled from the spec: GLM is a library outside the repository; this is
`glm::scale(m, v)`: the first three columns of `m` scaled by the components of `v`. -/
def scale (m : mat4 α) (v : vec3 α) : mat4 α :=
  ⟨vec4.scale m.c0 v.x, vec4.scale m.c1 v.y, vec4.scale m.c2 v.z, m.c3⟩

/-- Modelled from the spec: GLM is a library outside the repository; this is
`glm::rotate(m, angle, v)`, the rotation by `angle` radians about the axis `v`
(normalised first), multiplied onto `m`.  `r i j` is GLM's `Rotate[i][j]`. -/
def rotate (F : FloatOps α) (m : mat4 α) (angle : α) (v : vec3 α) : mat4 α :=
  let c := F.cos angle
  let s := F.sin angle
  let axis := normalize F v
  let temp : vec3 α := ⟨(1 - c) * axis.x, (1 - c) * axis.y, (1 - c) * axis.z⟩
  let r00 := c + temp.x * axis.x
  let r01 := temp.x * axis.y + s * axis.z
  let r02 := temp.x * axis.z - s * axis.y
  let r10 := temp.y * axis.x - s * axis.z
  let r11 := c + temp.y * axis.y
  let r12 := temp.y * axis.z + s * axis.x
  let r20 := temp.z * axis.x + s * axis.y
  let r21 := temp.z * axis.y - s * axis.x
  let r22 := c + temp.z * axis.z
  ⟨vec4.add (vec4.add (vec4.scale m.c0 r00) (vec4.scale m.c1 r01)) (vec4.scale m.c2 r02),
   vec4.add (vec4.add (vec4.scale m.c0 r10) (vec4.scale m.c1 r11)) (vec4.scale m.c2 r12),
   vec4.add (vec4.add (vec4.scale m.c0 r20) (vec4.scale m.c1 r21)) (vec4.scale m.c2 r22),
   m.c3⟩

namespace gtx

/-- Modelled from the spec: the one-argument `glm::translate(v)` of
`glm/gtx/transform.hpp`, `translate(mat4(1.0f), v)`. -/
def translate (v : vec3 α) : mat4 α :=
  glm.translate mat4.identity v

/-- Modelled from the spec: the two-argument `glm::rotate(angle, v)` of
`glm/gtx/transform.hpp`, `rotate(mat4(1.0f), angle, v)`. -/
def rotate (F : FloatOps α) (angle : α) (v : vec3 α) : mat4 α :=
  glm.rotate F mat4.identity angle v

/-- Modelled from the spec: the one-argument `glm::scale(v)` of
`glm/gtx/transform.hpp`, `scale(mat4(1.0f), v)`. -/
def scale (v : vec3 α) : mat4 α :=
  glm.scale mat4.identity v

end gtx

end glm

/-- A call that configures or fills the texture object bound on the active unit. -/
inductive GLCall where
  | texParameteri (texture : Nat) (pname : String) (param : String)
  | texImage2D (texture : Nat) (internalformat : String) (width height : Int) (format : String)
  | generateMipmap (texture : Nat)
  deriving DecidableEq, Repr

/-- The part of the OpenGL context the texture code touches. -/
structure GLState where
  /-- texture names in use: handed out by `glGenTextures` and not deleted -/
  names : List Nat
  /-- index `i` of the active texture unit `GL_TEXTURE0 + i` -/
  activeTexture : Nat
  /-- the texture bound to `GL_TEXTURE_2D` on each unit -/
  binding2D : Nat → Nat
  /-- the configuration and upload calls made so far, oldest first -/
  calls : List GLCall

/-- Modelled from the spec: OpenGL is outside the repository.
`glGenTextures(1, &id)` hands out a texture name that is not in use and marks
it as in use; the model picks the least name above every name in use. -/
def glGenTextures (gl : GLState) : Nat × GLState :=
  (gl.names.foldl max 0 + 1, { gl with names := gl.names ++ [gl.names.foldl max 0 + 1] })

/-- Modelled from the spec: OpenGL is outside the repository.
`glActiveTexture(GL_TEXTURE0 + i)` selects texture unit `i`. -/
def glActiveTexture (gl : GLState) (i : Nat) : GLState :=
  { gl with activeTexture := i }

/-- Modelled from the spec: OpenGL is outside the repository.
`glBindTexture(GL_TEXTURE_2D, texture)` binds `texture` on the active unit. -/
def glBindTexture (gl : GLState) (texture : Nat) : GLState :=
  { gl with binding2D := Function.update gl.binding2D gl.activeTexture texture }

/-- Modelled from the spec: OpenGL is outside the repository.
`glTexParameteri(GL_TEXTURE_2D, pname, param)` on the texture bound on the active unit. -/
def glTexParameteri (gl : GLState) (pname param : String) : GLState :=
  { gl with calls := gl.calls ++ [.texParameteri (gl.binding2D gl.activeTexture) pname param] }

/-- Modelled from the spec: OpenGL is outside the repository.
`glTexImage2D(GL_TEXTURE_2D, 0, internalformat, width, height, 0, format,
GL_UNSIGNED_BYTE, image)` on the texture bound on the active unit. -/
def glTexImage2D (gl : GLState) (internalformat : String) (width height : Int)
    (format : String) : GLState :=
  { gl with
    calls := gl.calls ++
      [.texImage2D (gl.binding2D gl.activeTexture) internalformat width height format] }

/-- Modelled from the spec: OpenGL is outside the repository.
`glGenerateMipmap(GL_TEXTURE_2D)` on the texture bound on the active unit. -/
def glGenerateMipmap (gl : GLState) : GLState :=
  { gl with calls := gl.calls ++ [.generateMipmap (gl.binding2D gl.activeTexture)] }

/-- What `stbi_load` reports about a decoded image (the pixels are not modelled). -/
structure Image where
  width : Int
  height : Int
  colorChannels : Int
  deriving DecidableEq, Repr

/-- One call on the shader manager or on the mesh object. -/
inductive PipelineOp (α : Type) where
  | setMat4Value (name : String) (value : mat4 α)
  | setVec2Value (name : String) (value : vec2 α)
  | setVec3Value (name : String) (value : vec3 α)
  | setVec4Value (name : String) (value : vec4 α)
  | setFloatValue (name : String) (value : α)
  | setIntValue (name : String) (value : Int)
  | setBoolValue (name : String) (value : Bool)
  | setSampler2DValue (name : String) (value : Int)
  | DrawPlaneMesh
  | DrawBoxMesh
  | DrawSphereMesh
  | DrawCylinderMesh
  | DrawConeMesh
  | DrawTaperedCylinderMesh
  deriving DecidableEq, Repr

/-- The global `g_ModelName`. -/
def g_ModelName : String := "model"

/-- The global `g_ColorValueName`. -/
def g_ColorValueName : String := "objectColor"

/-- The global `g_TextureValueName`. -/
def g_TextureValueName : String := "objectTexture"

/-- The global `g_UseTextureName`. -/
def g_UseTextureName : String := "bUseTexture"

/-- The global `g_UseLightingName`. -/
def g_UseLightingName : String := "bUseLighting"


namespace SceneManager

variable {α : Type}

/-- The constructor `SceneManager::SceneManager(pShaderManager)`. -/
def new (pShaderManager : Bool) : SceneManager α :=
  { m_pShaderManager := pShaderManager
    m_loadedTextures := 0
    m_textureIDs := fun _ => { tag := "/0", ID := UINT32_MAX }
    m_objectMaterials := [] }

/-- Read of `m_textureIDs[i]`. -/
def entry (s : SceneManager α) (i : Nat) : Except Fault TEXTURE_INFO :=
  if h : i < 16 then .ok (s.m_textureIDs ⟨i, h⟩) else .error (.outOfBounds i)

/-- Write to `m_textureIDs[i]`: the entry there becomes `f` of what it was. -/
def modifyEntry (s : SceneManager α) (i : Nat) (f : TEXTURE_INFO → TEXTURE_INFO) :
    Except Fault (SceneManager α) :=
  if h : i < 16 then
    .ok { s with m_textureIDs := Function.update s.m_textureIDs ⟨i, h⟩ (f (s.m_textureIDs ⟨i, h⟩)) }
  else .error (.outOfBounds i)

/-- The `while ((index < m_loadedTextures) && (bFound == false))` loop of
`FindTextureID`, from the loop head with the given values of the locals. -/
def FindTextureID.loop (s : SceneManager α) (tag : String)
    (index : Nat) (textureID : Int) (bFound : Bool) : Except Fault Int :=
  if h : index < s.m_loadedTextures ∧ bFound = false then
    match s.entry index with
    | .error e => .error e
    | .ok t =>
      if t.tag = tag then FindTextureID.loop s tag index (toInt32 t.ID) true
      else FindTextureID.loop s tag (index + 1) textureID bFound
  else .ok textureID
termination_by 2 * (s.m_loadedTextures - index) + (if bFound then 0 else 1)
decreasing_by
  all_goals simp_wf
  all_goals obtain ⟨hlt, hb⟩ := h
  all_goals subst hb
  all_goals try simp only [Bool.false_eq_true, if_false, if_true]
  all_goals omega

/-- The method `SceneManager::FindTextureID`. -/
def FindTextureID (s : SceneManager α) (tag : String) : Except Fault Int :=
  FindTextureID.loop s tag 0 (-1) false

/-- The `while ((index < m_loadedTextures) && (bFound == false))` loop of
`FindTextureSlot`, from the loop head with the given values of the locals. -/
def FindTextureSlot.loop (s : SceneManager α) (tag : String)
    (index : Nat) (textureSlot : Int) (bFound : Bool) : Except Fault Int :=
  if h : index < s.m_loadedTextures ∧ bFound = false then
    match s.entry index with
    | .error e => .error e
    | .ok t =>
      if t.tag = tag then FindTextureSlot.loop s tag index (index : Int) true
      else FindTextureSlot.loop s tag (index + 1) textureSlot bFound
  else .ok textureSlot
termination_by 2 * (s.m_loadedTextures - index) + (if bFound then 0 else 1)
decreasing_by
  all_goals simp_wf
  all_goals obtain ⟨hlt, hb⟩ := h
  all_goals subst hb
  all_goals try simp only [Bool.false_eq_true, if_false, if_true]
  all_goals omega

/-- The method `SceneManager::FindTextureSlot`. -/
def FindTextureSlot (s : SceneManager α) (tag : String) : Except Fault Int :=
  FindTextureSlot.loop s tag 0 (-1) false

/-- The `while ((index < m_objectMaterials.size()) && (bFound == false))` loop
of `FindMaterial`, from the loop head with the given values of the locals;
`material` is the caller's object behind the reference parameter.  The result
is the final `material`.  (`index` is an `int` in the source; it stays below the
vector's size, so no overflow arises for a vector of fewer than 2^31 entries.) -/
def FindMaterial.loop (s : SceneManager α) (tag : String)
    (index : Nat) (bFound : Bool) (material : OBJECT_MATERIAL α) : OBJECT_MATERIAL α :=
  if h : index < s.m_objectMaterials.length ∧ bFound = false then
    if (s.m_objectMaterials.get ⟨index, h.1⟩).tag = tag then
      FindMaterial.loop s tag index true
        { material with
          diffuseColor := (s.m_objectMaterials.get ⟨index, h.1⟩).diffuseColor
          specularColor := (s.m_objectMaterials.get ⟨index, h.1⟩).specularColor
          shininess := (s.m_objectMaterials.get ⟨index, h.1⟩).shininess }
    else FindMaterial.loop s tag (index + 1) bFound material
  else material
termination_by 2 * (s.m_objectMaterials.length - index) + (if bFound then 0 else 1)
decreasing_by
  all_goals simp_wf
  all_goals obtain ⟨hlt, hb⟩ := h
  all_goals subst hb
  all_goals try simp only [Bool.false_eq_true, if_false, if_true]
  all_goals omega

/-- The method `SceneManager::FindMaterial(tag, material)`: the returned `bool`
and the final content of the reference parameter `material`. -/
def FindMaterial (s : SceneManager α) (tag : String) (material : OBJECT_MATERIAL α) :
    Bool × OBJECT_MATERIAL α :=
  if s.m_objectMaterials.length = 0 then (false, material)
  else (true, FindMaterial.loop s tag 0 false material)

/-- The method `SceneManager::CreateGLTexture(filename, tag)`; `stbi_load` is
the image decoder, `none` being its NULL result.  The result is the returned
`bool` with the object and the OpenGL context after the call. -/
def CreateGLTexture (stbi_load : String → Option Image) (filename : String) (tag : String)
    (s : SceneManager α) (gl : GLState) : Except Fault (Bool × SceneManager α × GLState) :=
  match stbi_load filename with
  | some image =>
    let gen := glGenTextures gl
    let textureID := gen.1
    let gl := glBindTexture gen.2 textureID
    let gl := glTexParameteri gl "GL_TEXTURE_WRAP_S" "GL_REPEAT"
    let gl := glTexParameteri gl "GL_TEXTURE_WRAP_T" "GL_REPEAT"
    let gl := glTexParameteri gl "GL_TEXTURE_MIN_FILTER" "GL_LINEAR"
    let gl := glTexParameteri gl "GL_TEXTURE_MAG_FILTER" "GL_LINEAR"
    let uploaded : Option GLState :=
      if image.colorChannels = 3 then
        some (glTexImage2D gl "GL_RGB8" image.width image.height "GL_RGB")
      else if image.colorChannels = 4 then
        some (glTexImage2D gl "GL_RGBA8" image.width image.height "GL_RGBA")
      else none
    match uploaded with
    | none => .ok (false, s, gl)
    | some gl =>
      let gl := glGenerateMipmap gl
      let gl := glBindTexture gl 0
      match s.modifyEntry s.m_loadedTextures (fun t => { t with ID := textureID }) with
      | .error e => .error e
      | .ok s =>
        match s.modifyEntry s.m_loadedTextures (fun t => { t with tag := tag }) with
        | .error e => .error e
        | .ok s => .ok (true, { s with m_loadedTextures := s.m_loadedTextures + 1 }, gl)
  | none => .ok (false, s, gl)

/-- The loop `for (int i = 0; i < m_loadedTextures; i++)` of `BindGLTextures`,
from the loop head with the given `i`. -/
def BindGLTextures.loop (s : SceneManager α) (i : Nat) (gl : GLState) : Except Fault GLState :=
  if h : i < s.m_loadedTextures then
    match s.entry i with
    | .error e => .error e
    | .ok t => BindGLTextures.loop s (i + 1) (glBindTexture (glActiveTexture gl i) t.ID)
  else .ok gl
termination_by s.m_loadedTextures - i

/-- The method `SceneManager::BindGLTextures`. -/
def BindGLTextures (s : SceneManager α) (gl : GLState) : Except Fault GLState :=
  BindGLTextures.loop s 0 gl

/-- The loop `for (int i = 0; i < m_loadedTextures; i++)` of
`DestroyGLTextures`, from the loop head with the given `i`: each round calls
`glGenTextures(1, &m_textureIDs[i].ID)`. -/
def DestroyGLTextures.loop (n : Nat) (i : Nat) (s : SceneManager α) (gl : GLState) :
    Except Fault (SceneManager α × GLState) :=
  if h : i < n then
    match s.modifyEntry i (fun t => { t with ID := (glGenTextures gl).1 }) with
    | .error e => .error e
    | .ok s => DestroyGLTextures.loop n (i + 1) s (glGenTextures gl).2
  else .ok (s, gl)
termination_by n - i

/-- The method `SceneManager::DestroyGLTextures`; the loop bound
`m_loadedTextures` is not written by the loop. -/
def DestroyGLTextures (s : SceneManager α) (gl : GLState) :
    Except Fault (SceneManager α × GLState) :=
  DestroyGLTextures.loop s.m_loadedTextures 0 s gl

/-- The method `SceneManager::SetTransformations`: the pipeline trace after the call. -/
def SetTransformations [Field α] (F : FloatOps α) (s : SceneManager α)
    (scaleXYZ : vec3 α) (XrotationDegrees YrotationDegrees ZrotationDegrees : α)
    (positionXYZ : vec3 α) (pipeline : List (PipelineOp α)) : List (PipelineOp α) :=
  let scale := glm.gtx.scale scaleXYZ
  let rotationX := glm.gtx.rotate F (glm.radians F XrotationDegrees) ⟨1, 0, 0⟩
  let rotationY := glm.gtx.rotate F (glm.radians F YrotationDegrees) ⟨0, 1, 0⟩
  let rotationZ := glm.gtx.rotate F (glm.radians F ZrotationDegrees) ⟨0, 0, 1⟩
  let translation := glm.gtx.translate positionXYZ
  let modelView := translation * rotationZ * rotationY * rotationX * scale
  if s.m_pShaderManager then pipeline ++ [.setMat4Value g_ModelName modelView]
  else pipeline

/-- The method `SceneManager::SetShaderTexture`: the pipeline trace after the call. -/
def SetShaderTexture (s : SceneManager α) (textureTag : String)
    (pipeline : List (PipelineOp α)) : Except Fault (List (PipelineOp α)) :=
  if s.m_pShaderManager then
    match s.FindTextureSlot textureTag with
    | .error e => .error e
    | .ok textureID =>
      .ok (pipeline ++ [.setIntValue g_UseTextureName 1,
        .setSampler2DValue g_TextureValueName textureID])
  else .ok pipeline

/-- The method `SceneManager::DefineObjectMaterials`: eight `push_back`s. -/
def DefineObjectMaterials [Field α] (s : SceneManager α) : SceneManager α :=
  let woodMaterial : OBJECT_MATERIAL α :=
    { ambientColor := ⟨0.3, 0.2, 0.1⟩, ambientStrength := 0.25
      diffuseColor := ⟨0.4, 0.25, 0.15⟩, specularColor := ⟨0.2, 0.2, 0.2⟩
      shininess := 8.0, tag := "wood" }
  let s := { s with m_objectMaterials := s.m_objectMaterials ++ [woodMaterial] }
  let cementMaterial : OBJECT_MATERIAL α :=
    { ambientColor := ⟨0.4, 0.4, 0.4⟩, ambientStrength := 0.4
      diffuseColor := ⟨0.6, 0.6, 0.6⟩, specularColor := ⟨0.2, 0.2, 0.2⟩
      shininess := 4.0, tag := "cement" }
  let s := { s with m_objectMaterials := s.m_objectMaterials ++ [cementMaterial] }
  let blueTape : OBJECT_MATERIAL α :=
    { ambientColor := ⟨0.1, 0.2, 0.5⟩, ambientStrength := 0.3
      diffuseColor := ⟨0.1, 0.3, 0.9⟩, specularColor := ⟨0.2, 0.4, 1.0⟩
      shininess := 16.0, tag := "blue_tape" }
  let s := { s with m_objectMaterials := s.m_objectMaterials ++ [blueTape] }
  let cardboard : OBJECT_MATERIAL α :=
    { ambientColor := ⟨0.25, 0.2, 0.15⟩, ambientStrength := 0.2
      diffuseColor := ⟨0.45, 0.35, 0.25⟩, specularColor := ⟨0.05, 0.05, 0.05⟩
      shininess := 4.0, tag := "cardboard" }
  let s := { s with m_objectMaterials := s.m_objectMaterials ++ [cardboard] }
  let chapstick : OBJECT_MATERIAL α :=
    { ambientColor := ⟨0.8, 0.8, 0.8⟩, ambientStrength := 0.3
      diffuseColor := ⟨1.0, 1.0, 1.0⟩, specularColor := ⟨0.6, 0.6, 0.6⟩
      shininess := 32.0, tag := "chapstick" }
  let s := { s with m_objectMaterials := s.m_objectMaterials ++ [chapstick] }
  let penBody : OBJECT_MATERIAL α :=
    { ambientColor := ⟨0.2, 0.2, 0.2⟩, ambientStrength := 0.3
      diffuseColor := ⟨0.3, 0.3, 0.3⟩, specularColor := ⟨0.4, 0.4, 0.4⟩
      shininess := 12.0, tag := "pen" }
  let s := { s with m_objectMaterials := s.m_objectMaterials ++ [penBody] }
  let cupMaterial : OBJECT_MATERIAL α :=
    { ambientColor := ⟨0.8, 0.0, 0.1⟩, ambientStrength := 0.25
      diffuseColor := ⟨0.75, 0.0, 0.04⟩, specularColor := ⟨0.3, 0.2, 0.2⟩
      shininess := 8.0, tag := "solo" }
  let s := { s with m_objectMaterials := s.m_objectMaterials ++ [cupMaterial] }
  let bookMaterial : OBJECT_MATERIAL α :=
    { ambientColor := ⟨1.0, 1.0, 1.0⟩, ambientStrength := 0.4
      diffuseColor := ⟨1.0, 1.0, 1.0⟩, specularColor := ⟨0.1, 0.1, 0.1⟩
      shininess := 8.0, tag := "book" }
  { s with m_objectMaterials := s.m_objectMaterials ++ [bookMaterial] }

/-- The method `SceneManager::SetShaderColor`: the pipeline trace after the call. -/
def SetShaderColor (s : SceneManager α)
    (redColorValue greenColorValue blueColorValue alphaValue : α)
    (pipeline : List (PipelineOp α)) : List (PipelineOp α) :=
  let currentColor : vec4 α := ⟨redColorValue, greenColorValue, blueColorValue, alphaValue⟩
  if s.m_pShaderManager then
    pipeline ++ [.setIntValue g_UseTextureName 0, .setVec4Value g_ColorValueName currentColor]
  else pipeline

/-- The method `SceneManager::SetTextureUVScale`: the pipeline trace after the call. -/
def SetTextureUVScale (s : SceneManager α) (u v : α)
    (pipeline : List (PipelineOp α)) : List (PipelineOp α) :=
  if s.m_pShaderManager then pipeline ++ [.setVec2Value "UVscale" ⟨u, v⟩]
  else pipeline

/-- The method `SceneManager::SetShaderMaterial`: the pipeline trace after the
call.  `uninit` is the content of the local `OBJECT_MATERIAL material;`, which
the method declares without a value before it passes it to `FindMaterial`.  The
three uploads go through `m_pShaderManager` without a NULL test. -/
def SetShaderMaterial (s : SceneManager α) (materialTag : String)
    (uninit : OBJECT_MATERIAL α) (pipeline : List (PipelineOp α)) :
    Except Fault (List (PipelineOp α)) :=
  if s.m_objectMaterials.length > 0 then
    let found := s.FindMaterial materialTag uninit
    let bReturn := found.1
    let material := found.2
    if bReturn = true then
      if s.m_pShaderManager then
        .ok (pipeline ++ [.setVec3Value "material.diffuseColor" material.diffuseColor,
          .setVec3Value "material.specularColor" material.specularColor,
          .setFloatValue "material.shininess" material.shininess])
      else .error .nullPointer
    else .ok pipeline
  else .ok pipeline

/-- The method `SceneManager::LoadSceneTextures`: nine calls of
`CreateGLTexture`, whose results are not looked at, then `BindGLTextures`. -/
def LoadSceneTextures (stbi_load : String → Option Image)
    (s : SceneManager α) (gl : GLState) : Except Fault (SceneManager α × GLState) :=
  match CreateGLTexture stbi_load "../../Utilities/textures/knife_handle.jpg" "cone" s gl with
  | .error e => .error e
  | .ok (_, s, gl) =>
  match CreateGLTexture stbi_load "../../Utilities/textures/seamless-wood3.jpg" "cylinder" s gl with
  | .error e => .error e
  | .ok (_, s, gl) =>
  match CreateGLTexture stbi_load "../../Utilities/textures/road.jpg" "plane" s gl with
  | .error e => .error e
  | .ok (_, s, gl) =>
  match CreateGLTexture stbi_load "../../Utilities/textures/blueTape.jpg" "tape" s gl with
  | .error e => .error e
  | .ok (_, s, gl) =>
  match CreateGLTexture stbi_load "../../Utilities/textures/cardboard.jpg" "cardboard" s gl with
  | .error e => .error e
  | .ok (_, s, gl) =>
  match CreateGLTexture stbi_load "../../Utilities/textures/drywall.jpg" "chapstick" s gl with
  | .error e => .error e
  | .ok (_, s, gl) =>
  match CreateGLTexture stbi_load "../../Utilities/textures/pen.jpg" "pen" s gl with
  | .error e => .error e
  | .ok (_, s, gl) =>
  match CreateGLTexture stbi_load "../../Utilities/textures/stainless.jpg" "solo" s gl with
  | .error e => .error e
  | .ok (_, s, gl) =>
  match CreateGLTexture stbi_load "../../Utilities/textures/napkinfinance.jpg" "book" s gl with
  | .error e => .error e
  | .ok (_, s, gl) =>
  match s.BindGLTextures gl with
  | .error e => .error e
  | .ok gl => .ok (s, gl)

/-- The method `SceneManager::RenderCylinder`: the pipeline trace after the
call; `uninit` is the uninitialised local of `SetShaderMaterial`. -/
def RenderCylinder [Field α] (F : FloatOps α) (s : SceneManager α)
    (scale : vec3 α) (rotX rotY rotZ : α) (position : vec3 α)
    (materialTag textureTag : String) (useTexture : Bool)
    (uninit : OBJECT_MATERIAL α) (pipeline : List (PipelineOp α)) :
    Except Fault (List (PipelineOp α)) :=
  let pipeline := s.SetTransformations F scale rotX rotY rotZ position pipeline
  match s.SetShaderMaterial materialTag uninit pipeline with
  | .error e => .error e
  | .ok pipeline =>
    match (if useTexture then s.SetShaderTexture textureTag pipeline else .ok pipeline) with
    | .error e => .error e
    | .ok pipeline => .ok (pipeline ++ [.DrawCylinderMesh])

/-- The method `SceneManager::RenderCone`: the pipeline trace after the call;
`uninit` is the uninitialised local of `SetShaderMaterial`. -/
def RenderCone [Field α] (F : FloatOps α) (s : SceneManager α)
    (scale : vec3 α) (rotX rotY rotZ : α) (position : vec3 α)
    (materialTag textureTag : String) (useTexture : Bool)
    (uninit : OBJECT_MATERIAL α) (pipeline : List (PipelineOp α)) :
    Except Fault (List (PipelineOp α)) :=
  let pipeline := s.SetTransformations F scale rotX rotY rotZ position pipeline
  match s.SetShaderMaterial materialTag uninit pipeline with
  | .error e => .error e
  | .ok pipeline =>
    match (if useTexture then s.SetShaderTexture textureTag pipeline else .ok pipeline) with
    | .error e => .error e
    | .ok pipeline => .ok (pipeline ++ [.DrawConeMesh])

/-- The method `SceneManager::RenderBox`: the pipeline trace after the call;
`uninit` is the uninitialised local of `SetShaderMaterial`. -/
def RenderBox [Field α] (F : FloatOps α) (s : SceneManager α)
    (scale : vec3 α) (rotX rotY rotZ : α) (position : vec3 α)
    (materialTag textureTag : String) (useTexture : Bool)
    (uninit : OBJECT_MATERIAL α) (pipeline : List (PipelineOp α)) :
    Except Fault (List (PipelineOp α)) :=
  let pipeline := s.SetTransformations F scale rotX rotY rotZ position pipeline
  match s.SetShaderMaterial materialTag uninit pipeline with
  | .error e => .error e
  | .ok pipeline =>
    match (if useTexture then s.SetShaderTexture textureTag pipeline else .ok pipeline) with
    | .error e => .error e
    | .ok pipeline => .ok (pipeline ++ [.DrawBoxMesh])

/-- The method `SceneManager::RenderPlane`: the pipeline trace after the call;
`uninit` is the uninitialised local of `SetShaderMaterial`. -/
def RenderPlane [Field α] (F : FloatOps α) (s : SceneManager α)
    (scale : vec3 α) (rotX rotY rotZ : α) (position : vec3 α)
    (materialTag textureTag : String) (useTexture : Bool)
    (uninit : OBJECT_MATERIAL α) (pipeline : List (PipelineOp α)) :
    Except Fault (List (PipelineOp α)) :=
  let pipeline := s.SetTransformations F scale rotX rotY rotZ position pipeline
  match s.SetShaderMaterial materialTag uninit pipeline with
  | .error e => .error e
  | .ok pipeline =>
    match (if useTexture then s.SetShaderTexture textureTag pipeline else .ok pipeline) with
    | .error e => .error e
    | .ok pipeline => .ok (pipeline ++ [.DrawPlaneMesh])

/-- The method `SceneManager::RenderTaperedCylinder`: the pipeline trace after
the call; `uninit` is the uninitialised local of `SetShaderMaterial`. -/
def RenderTaperedCylinder [Field α] (F : FloatOps α) (s : SceneManager α)
    (scale : vec3 α) (rotX rotY rotZ : α) (position : vec3 α)
    (materialTag textureTag : String) (useTexture : Bool)
    (uninit : OBJECT_MATERIAL α) (pipeline : List (PipelineOp α)) :
    Except Fault (List (PipelineOp α)) :=
  let pipeline := s.SetTransformations F scale rotX rotY rotZ position pipeline
  match s.SetShaderMaterial materialTag uninit pipeline with
  | .error e => .error e
  | .ok pipeline =>
    match (if useTexture then s.SetShaderTexture textureTag pipeline else .ok pipeline) with
    | .error e => .error e
    | .ok pipeline => .ok (pipeline ++ [.DrawTaperedCylinderMesh])

/-- The method `SceneManager::RenderSphere`: the pipeline trace after the call;
`uninit` is the uninitialised local of `SetShaderMaterial`. -/
def RenderSphere [Field α] (F : FloatOps α) (s : SceneManager α)
    (scale : vec3 α) (rotX rotY rotZ : α) (position : vec3 α)
    (materialTag textureTag : String) (useTexture : Bool)
    (uninit : OBJECT_MATERIAL α) (pipeline : List (PipelineOp α)) :
    Except Fault (List (PipelineOp α)) :=
  let pipeline := s.SetTransformations F scale rotX rotY rotZ position pipeline
  match s.SetShaderMaterial materialTag uninit pipeline with
  | .error e => .error e
  | .ok pipeline =>
    match (if useTexture then s.SetShaderTexture textureTag pipeline else .ok pipeline) with
    | .error e => .error e
    | .ok pipeline => .ok (pipeline ++ [.DrawSphereMesh])

end SceneManager

/-! ## Sequences of render calls -/

/-- The six shapes a `Render*` method draws. -/
inductive ShapeKind where
  | Box
  | Sphere
  | Cylinder
  | Cone
  | TaperedCylinder
  | Plane
  deriving DecidableEq, Repr

/-- One call of a `Render*` method: the method, named by its shape, and its arguments. -/
structure ObjectPlacement (α : Type) where
  shapeKind : ShapeKind
  scale : vec3 α
  rotX : α
  rotY : α
  rotZ : α
  position : vec3 α
  materialTag : String
  textureTag : String
  useTexture : Bool

/-- The draw call of the mesh object for a shape. -/
def ShapeKind.draw {α : Type} : ShapeKind → PipelineOp α
  | .Box => .DrawBoxMesh
  | .Sphere => .DrawSphereMesh
  | .Cylinder => .DrawCylinderMesh
  | .Cone => .DrawConeMesh
  | .TaperedCylinder => .DrawTaperedCylinderMesh
  | .Plane => .DrawPlaneMesh

/-- Whether a pipeline operation is a draw call of the mesh object. -/
def PipelineOp.isDraw {α : Type} : PipelineOp α → Bool
  | .DrawPlaneMesh => true
  | .DrawBoxMesh => true
  | .DrawSphereMesh => true
  | .DrawCylinderMesh => true
  | .DrawConeMesh => true
  | .DrawTaperedCylinderMesh => true
  | _ => false

/-- Modelled from the spec: the shader manager is not among the sources.  An
integer or boolean uniform holds the last value written to it; `none` when the
trace has no write to `name`. -/
def uniformInt {α : Type} (name : String) (pipeline : List (PipelineOp α)) : Option Int :=
  pipeline.foldl
    (fun held op =>
      match op with
      | .setIntValue n v => if n = name then some v else held
      | .setBoolValue n b => if n = name then some (if b then 1 else 0) else held
      | _ => held)
    none

namespace SceneManager

variable {α : Type}

/-- The call of the `Render*` method that a placement stands for. -/
def Render [Field α] (F : FloatOps α) (s : SceneManager α) (c : ObjectPlacement α)
    (uninit : OBJECT_MATERIAL α) (pipeline : List (PipelineOp α)) :
    Except Fault (List (PipelineOp α)) :=
  match c.shapeKind with
  | .Box => s.RenderBox F c.scale c.rotX c.rotY c.rotZ c.position c.materialTag c.textureTag
      c.useTexture uninit pipeline
  | .Sphere => s.RenderSphere F c.scale c.rotX c.rotY c.rotZ c.position c.materialTag
      c.textureTag c.useTexture uninit pipeline
  | .Cylinder => s.RenderCylinder F c.scale c.rotX c.rotY c.rotZ c.position c.materialTag
      c.textureTag c.useTexture uninit pipeline
  | .Cone => s.RenderCone F c.scale c.rotX c.rotY c.rotZ c.position c.materialTag
      c.textureTag c.useTexture uninit pipeline
  | .TaperedCylinder => s.RenderTaperedCylinder F c.scale c.rotX c.rotY c.rotZ c.position
      c.materialTag c.textureTag c.useTexture uninit pipeline
  | .Plane => s.RenderPlane F c.scale c.rotX c.rotY c.rotZ c.position c.materialTag
      c.textureTag c.useTexture uninit pipeline

/-- The calls of a list of placements, one after the other. -/
def RenderAll [Field α] (F : FloatOps α) (s : SceneManager α) (uninit : OBJECT_MATERIAL α) :
    List (ObjectPlacement α) → List (PipelineOp α) → Except Fault (List (PipelineOp α))
  | [], pipeline => .ok pipeline
  | c :: cs, pipeline =>
    match s.Render F c uninit pipeline with
    | .error e => .error e
    | .ok pipeline => RenderAll F s uninit cs pipeline

/-- The 18 `Render*` calls of `SceneManager::RenderScene`, in the order of the source. -/
def RenderScene.placements [Field α] : List (ObjectPlacement α) :=
  [ ⟨.Plane, ⟨20.0, 1.0, 10.0⟩, 0.0, 0.0, 0.0, ⟨0.0, 0.0, 0.0⟩, "cement", "plane", true⟩,
    ⟨.Cylinder, ⟨5.0, 2.0, 5.0⟩, 0.0, 0.0, 0.0, ⟨-5.0, 0.0, -3.0⟩, "wood", "cylinder", true⟩,
    ⟨.Cone, ⟨1.0, 4.0, 1.0⟩, 0.0, 0.0, 0.0, ⟨-5.0, 0.0, -3.0⟩, "wood", "cone", true⟩,
    ⟨.Cone, ⟨1.0, 4.0, 1.0⟩, 190.0, 0.0, 0.0, ⟨-5.0, 5.0, -3.0⟩, "wood", "cone", true⟩,
    ⟨.Cylinder, ⟨3.5, 2.0, 3.5⟩, 0.0, 0.0, 0.0, ⟨-5.0, 4.0, -3.0⟩, "wood", "cylinder", true⟩,
    ⟨.Cone, ⟨1.0, 4.0, 1.0⟩, 0.0, 0.0, 0.0, ⟨-5.0, 4.0, -3.0⟩, "wood", "cone", true⟩,
    ⟨.Cone, ⟨1.0, 4.0, 1.0⟩, 190.0, 0.0, 0.0, ⟨-5.0, 9.0, -3.0⟩, "wood", "cone", true⟩,
    ⟨.Cylinder, ⟨2.0, 1.5, 2.0⟩, 0.0, 0.0, 0.0, ⟨-5.0, 9.0, -3.0⟩, "wood", "cylinder", true⟩,
    ⟨.Cone, ⟨1.0, 4.0, 1.0⟩, 0.0, 0.0, 0.0, ⟨-5.0, 9.0, -3.0⟩, "wood", "cone", true⟩,
    ⟨.Cylinder, ⟨0.5, 1.5, 0.5⟩, 0.0, 0.0, 0.0, ⟨-5.0, 12.0, -3.0⟩, "wood", "cylinder", true⟩,
    ⟨.Cylinder, ⟨1.0, 1.0, 1.0⟩, 0.0, 0.0, 0.0, ⟨1.1, 0.0, 1.5⟩, "blue_tape", "tape", true⟩,
    ⟨.Cylinder, ⟨0.8, 1.02, 0.8⟩, 0.0, 0.0, 0.0, ⟨1.1, 0.0, 1.5⟩, "cardboard", "cardboard",
      true⟩,
    ⟨.Cylinder, ⟨0.20, 1.5, 0.20⟩, 90.0, 110.0, 0.0, ⟨0.0, 0.20, 3.0⟩, "chapstick",
      "chapstick", true⟩,
    ⟨.Cylinder, ⟨0.15, 2.5, 0.15⟩, 0.0, 0.0, 90.0, ⟨-5.0, 0.15, 3.0⟩, "pen", "pen", true⟩,
    ⟨.Cone, ⟨0.15, 0.4, 0.15⟩, 0.0, 0.0, 270.0, ⟨-5.0, 0.15, 3.0⟩, "pen", "pen", true⟩,
    ⟨.Sphere, ⟨0.1, 0.3, 0.1⟩, 0.0, 0.0, 90.0, ⟨-7.5, 0.15, 3.0⟩, "pen", "pen", true⟩,
    ⟨.TaperedCylinder, ⟨1.4, 3.0, 1.4⟩, 0.0, 0.0, 0.0, ⟨2.4, 0.0, -2.0⟩, "solo", "solo", true⟩,
    ⟨.Box, ⟨6.0, 6.0, 0.5⟩, 0.0, -25.0, 0.0, ⟨4.0, 3.0, -3.4⟩, "book", "book", true⟩ ]

/-- The method `SceneManager::RenderScene`: its 18 calls, one after the other. -/
def RenderScene [Field α] (F : FloatOps α) (s : SceneManager α) (uninit : OBJECT_MATERIAL α)
    (pipeline : List (PipelineOp α)) : Except Fault (List (PipelineOp α)) :=
  RenderAll F s uninit RenderScene.placements pipeline

end SceneManager

/-! ## Concrete states the theorems are evaluated at -/

/-- A registry of two textures, "cone" in slot 0 and "cylinder" in slot 1, as
`LoadSceneTextures` builds it with its first two calls. -/
def twoTextures : SceneManager ℚ :=
  { m_pShaderManager := true
    m_loadedTextures := 2
    m_textureIDs := fun i =>
      if i.val = 0 then ⟨"cone", 1⟩ else if i.val = 1 then ⟨"cylinder", 2⟩
      else ⟨"/0", UINT32_MAX⟩
    m_objectMaterials := [] }

/-- The object after the constructor and `DefineObjectMaterials`. -/
def sceneMaterials : SceneManager ℚ :=
  SceneManager.DefineObjectMaterials (SceneManager.new true)

/-- A caller's `OBJECT_MATERIAL material;` before `FindMaterial` fills it. -/
def blankMaterial : OBJECT_MATERIAL ℚ :=
  { ambientColor := ⟨0, 0, 0⟩, ambientStrength := 0, diffuseColor := ⟨0, 0, 0⟩
    specularColor := ⟨0, 0, 0⟩, shininess := 0, tag := "" }

/-- A registry with all 16 slots taken: slot `i` holds the tag "tile" and the handle `i + 1`. -/
def fullRegistry : SceneManager ℚ :=
  { m_pShaderManager := true
    m_loadedTextures := 16
    m_textureIDs := fun i => ⟨"tile", i.val + 1⟩
    m_objectMaterials := [] }

/-- An OpenGL context in which the texture names `1 .. n` are in use, unit 0 is
active and nothing is bound. -/
def glWithNames (n : Nat) : GLState :=
  { names := (List.range n).map (· + 1)
    activeTexture := 0
    binding2D := fun _ => 0
    calls := [] }

/-- A decoder that yields a 64 x 64 image with the given channel count for every file. -/
def decodeWith (colorChannels : Int) : String → Option Image :=
  fun _ => some ⟨64, 64, colorChannels⟩

/-- A decoder that fails on every file. -/
def decodeNothing : String → Option Image :=
  fun _ => none

/-- What is looked at after a run of `DestroyGLTextures` on a registry of two
textures: the texture names in use in the OpenGL context, and the handles the
registry holds in slots 0 and 1. -/
def namesAndHandles (r : SceneManager ℚ × GLState) : List Nat × Nat × Nat :=
  (r.2.names, (r.1.m_textureIDs 0).ID, (r.1.m_textureIDs 1).ID)

/-- The registry of two textures with the materials of `DefineObjectMaterials`. -/
def texturedScene : SceneManager ℚ :=
  SceneManager.DefineObjectMaterials twoTextures

/-- Scalar operations on `ℚ` for traces of unrotated objects: they are exact at
the angle 0 (`cos 0 = 1`, `sin 0 = 0`) and on unit axes (`inversesqrt 1 = 1`). -/
def unrotatedOps : FloatOps ℚ :=
  { cos := fun _ => 1, sin := fun _ => 0, inversesqrt := fun _ => 1, pi := 355 / 113 }

/-- A pipeline in which an earlier textured draw has left `bUseTexture` enabled. -/
def textureEnabled : List (PipelineOp ℚ) :=
  [.setIntValue "bUseTexture" 1]

/-- Two placements without texture: a box of material "wood", then a plane of
material "cement". -/
def woodThenCement : List (ObjectPlacement ℚ) :=
  [ ⟨.Box, ⟨1, 1, 1⟩, 0, 0, 0, ⟨0, 0, 0⟩, "wood", "", false⟩,
    ⟨.Plane, ⟨1, 1, 1⟩, 0, 0, 0, ⟨0, 0, 0⟩, "cement", "", false⟩ ]

/-! ## The transform as the specification words it -/

namespace Spec

variable {α : Type} [Field α]

/-- The matrix of the translation by `t`. -/
def Translation (t : vec3 α) : mat4 α :=
  ⟨⟨1, 0, 0, 0⟩, ⟨0, 1, 0, 0⟩, ⟨0, 0, 1, 0⟩, ⟨t.x, t.y, t.z, 1⟩⟩

/-- The matrix of the componentwise scaling by `k`. -/
def Scale (k : vec3 α) : mat4 α :=
  ⟨⟨k.x, 0, 0, 0⟩, ⟨0, k.y, 0, 0⟩, ⟨0, 0, k.z, 0⟩, ⟨0, 0, 0, 1⟩⟩

/-- The matrix of the rotation by `θ` radians about the X axis. -/
def RotationX (F : FloatOps α) (θ : α) : mat4 α :=
  ⟨⟨1, 0, 0, 0⟩, ⟨0, F.cos θ, F.sin θ, 0⟩, ⟨0, -F.sin θ, F.cos θ, 0⟩, ⟨0, 0, 0, 1⟩⟩

/-- The matrix of the rotation by `θ` radians about the Y axis. -/
def RotationY (F : FloatOps α) (θ : α) : mat4 α :=
  ⟨⟨F.cos θ, 0, -F.sin θ, 0⟩, ⟨0, 1, 0, 0⟩, ⟨F.sin θ, 0, F.cos θ, 0⟩, ⟨0, 0, 0, 1⟩⟩

/-- The matrix of the rotation by `θ` radians about the Z axis. -/
def RotationZ (F : FloatOps α) (θ : α) : mat4 α :=
  ⟨⟨F.cos θ, F.sin θ, 0, 0⟩, ⟨-F.sin θ, F.cos θ, 0, 0⟩, ⟨0, 0, 1, 0⟩, ⟨0, 0, 0, 1⟩⟩

/-- The point `p` scaled componentwise by `k`. -/
def scalePoint (k p : vec3 α) : vec3 α :=
  ⟨k.x * p.x, k.y * p.y, k.z * p.z⟩

/-- The point `p` rotated by `θ` radians about the X axis. -/
def Rx (F : FloatOps α) (θ : α) (p : vec3 α) : vec3 α :=
  ⟨p.x, F.cos θ * p.y - F.sin θ * p.z, F.sin θ * p.y + F.cos θ * p.z⟩

/-- The point `p` rotated by `θ` radians about the Y axis. -/
def Ry (F : FloatOps α) (θ : α) (p : vec3 α) : vec3 α :=
  ⟨F.cos θ * p.x + F.sin θ * p.z, p.y, F.cos θ * p.z - F.sin θ * p.x⟩

/-- The point `p` rotated by `θ` radians about the Z axis. -/
def Rz (F : FloatOps α) (θ : α) (p : vec3 α) : vec3 α :=
  ⟨F.cos θ * p.x - F.sin θ * p.y, F.sin θ * p.x + F.cos θ * p.y, p.z⟩

/-- The point `p` moved by `t`. -/
def movePoint (t p : vec3 α) : vec3 α :=
  ⟨t.x + p.x, t.y + p.y, t.z + p.z⟩

/-- The local point `p` as the `vec4` a model matrix is applied to. -/
def homogeneous (p : vec3 α) : vec4 α :=
  ⟨p.x, p.y, p.z, 1⟩

end Spec


/-! ## Lemmas on the lookup loops -/

namespace SceneManager

variable {α : Type}

theorem entry_of_lt (s : SceneManager α) (i : Nat) (h : i < 16) :
    s.entry i = .ok (s.m_textureIDs ⟨i, h⟩) := by
  simp [entry, h]

theorem FindTextureSlot_loop_found (s : SceneManager α) (tag : String) (index : Nat)
    (textureSlot : Int) : FindTextureSlot.loop s tag index textureSlot true = .ok textureSlot := by
  rw [FindTextureSlot.loop]
  simp

theorem FindTextureSlot_loop_past (s : SceneManager α) (tag : String) (index : Nat)
    (textureSlot : Int) (bFound : Bool) (h : ¬ index < s.m_loadedTextures) :
    FindTextureSlot.loop s tag index textureSlot bFound = .ok textureSlot := by
  rw [FindTextureSlot.loop]
  simp [h]

theorem FindTextureSlot_loop_hit (s : SceneManager α) (tag : String) (index : Nat)
    (textureSlot : Int) (hn : index < s.m_loadedTextures) (h16 : index < 16)
    (ht : (s.m_textureIDs ⟨index, h16⟩).tag = tag) :
    FindTextureSlot.loop s tag index textureSlot false = .ok (index : Int) := by
  rw [FindTextureSlot.loop]
  simp [hn, entry_of_lt s index h16, ht, FindTextureSlot_loop_found]

theorem FindTextureSlot_loop_miss (s : SceneManager α) (tag : String) (index : Nat)
    (textureSlot : Int) (hn : index < s.m_loadedTextures) (h16 : index < 16)
    (ht : (s.m_textureIDs ⟨index, h16⟩).tag ≠ tag) :
    FindTextureSlot.loop s tag index textureSlot false =
      FindTextureSlot.loop s tag (index + 1) textureSlot false := by
  rw [FindTextureSlot.loop]
  simp [hn, entry_of_lt s index h16, ht]

/-- No entry from `index` on carries the tag: the loop leaves `textureSlot` as it is. -/
theorem FindTextureSlot_loop_none (s : SceneManager α) (tag : String) (textureSlot : Int)
    (h16 : s.m_loadedTextures ≤ 16) :
    ∀ (k index : Nat), s.m_loadedTextures - index = k →
      (∀ j : Fin 16, index ≤ j.val → j.val < s.m_loadedTextures →
        (s.m_textureIDs j).tag ≠ tag) →
      FindTextureSlot.loop s tag index textureSlot false = .ok textureSlot := by
  intro k
  induction k with
  | zero =>
    intro index hk _
    exact FindTextureSlot_loop_past s tag index textureSlot false (by omega)
  | succ k ih =>
    intro index hk hall
    have hn : index < s.m_loadedTextures := by omega
    have hi : index < 16 := by omega
    rw [FindTextureSlot_loop_miss s tag index textureSlot hn hi (hall ⟨index, hi⟩ (le_refl _) hn)]
    exact ih (index + 1) (by omega) (fun j hj hjn => hall j (by omega) hjn)

/-- Entry `i` is the first from `index` on that carries the tag: the loop yields `i`. -/
theorem FindTextureSlot_loop_first (s : SceneManager α) (tag : String) (textureSlot : Int)
    (i : Fin 16) (hin : i.val < s.m_loadedTextures) (hti : (s.m_textureIDs i).tag = tag) :
    ∀ (k index : Nat), i.val - index = k → index ≤ i.val →
      (∀ j : Fin 16, index ≤ j.val → j.val < i.val → (s.m_textureIDs j).tag ≠ tag) →
      FindTextureSlot.loop s tag index textureSlot false = .ok (i.val : Int) := by
  intro k
  induction k with
  | zero =>
    intro index hk hle _
    have hidx : index = i.val := by omega
    subst hidx
    exact FindTextureSlot_loop_hit s tag i.val textureSlot hin i.isLt hti
  | succ k ih =>
    intro index hk hle hall
    have hlt : index < i.val := by omega
    have hi : index < 16 := by have := i.isLt; omega
    rw [FindTextureSlot_loop_miss s tag index textureSlot (by omega) hi
      (hall ⟨index, hi⟩ (le_refl _) hlt)]
    exact ih (index + 1) (by omega) (by omega) (fun j hj hji => hall j (by omega) hji)

theorem FindTextureSlot_none (s : SceneManager α) (tag : String)
    (h16 : s.m_loadedTextures ≤ 16)
    (hall : ∀ j : Fin 16, j.val < s.m_loadedTextures → (s.m_textureIDs j).tag ≠ tag) :
    s.FindTextureSlot tag = .ok (-1) :=
  FindTextureSlot_loop_none s tag (-1) h16 _ 0 rfl (fun j _ hj => hall j hj)

theorem FindTextureSlot_first (s : SceneManager α) (tag : String)
    (i : Fin 16) (hin : i.val < s.m_loadedTextures) (hti : (s.m_textureIDs i).tag = tag)
    (hall : ∀ j : Fin 16, j.val < i.val → (s.m_textureIDs j).tag ≠ tag) :
    s.FindTextureSlot tag = .ok (i.val : Int) :=
  FindTextureSlot_loop_first s tag (-1) i hin hti _ 0 rfl (Nat.zero_le _) (fun j _ hj => hall j hj)

/-- Either some entry among the first `m_loadedTextures` carries the tag, and
then there is a first one, or none does. -/
theorem first_or_none (s : SceneManager α) (tag : String) :
    (∃ i : Fin 16, i.val < s.m_loadedTextures ∧ (s.m_textureIDs i).tag = tag ∧
        ∀ j : Fin 16, j.val < i.val → (s.m_textureIDs j).tag ≠ tag) ∨
      (∀ j : Fin 16, j.val < s.m_loadedTextures → (s.m_textureIDs j).tag ≠ tag) := by
  by_cases hex : ∃ i : Fin 16, i.val < s.m_loadedTextures ∧ (s.m_textureIDs i).tag = tag
  · left
    classical
    let P : Nat → Prop := fun n =>
      ∃ h : n < 16, n < s.m_loadedTextures ∧ (s.m_textureIDs ⟨n, h⟩).tag = tag
    have hP : ∃ n, P n := by
      obtain ⟨i, hi, ht⟩ := hex
      exact ⟨i.val, i.isLt, hi, ht⟩
    obtain ⟨h16, hlt, ht⟩ := Nat.find_spec hP
    refine ⟨⟨Nat.find hP, h16⟩, hlt, ht, ?_⟩
    intro j hj habs
    exact Nat.find_min hP hj ⟨j.isLt, by simp only at hj; omega, habs⟩
  · right
    intro j hj habs
    exact hex ⟨j, hj, habs⟩

theorem FindMaterial_loop_found (s : SceneManager α) (tag : String) (index : Nat)
    (material : OBJECT_MATERIAL α) : FindMaterial.loop s tag index true material = material := by
  rw [FindMaterial.loop]
  simp

theorem FindMaterial_loop_past (s : SceneManager α) (tag : String) (index : Nat)
    (bFound : Bool) (material : OBJECT_MATERIAL α) (h : ¬ index < s.m_objectMaterials.length) :
    FindMaterial.loop s tag index bFound material = material := by
  rw [FindMaterial.loop]
  simp [h]

theorem FindMaterial_loop_hit (s : SceneManager α) (tag : String) (index : Nat)
    (material : OBJECT_MATERIAL α) (hn : index < s.m_objectMaterials.length)
    (ht : (s.m_objectMaterials.get ⟨index, hn⟩).tag = tag) :
    FindMaterial.loop s tag index false material =
      { material with
        diffuseColor := (s.m_objectMaterials.get ⟨index, hn⟩).diffuseColor
        specularColor := (s.m_objectMaterials.get ⟨index, hn⟩).specularColor
        shininess := (s.m_objectMaterials.get ⟨index, hn⟩).shininess } := by
  rw [FindMaterial.loop]
  simp only [hn, and_self, dite_true, ht, if_true, FindMaterial_loop_found]

theorem FindMaterial_loop_miss (s : SceneManager α) (tag : String) (index : Nat)
    (material : OBJECT_MATERIAL α) (hn : index < s.m_objectMaterials.length)
    (ht : (s.m_objectMaterials.get ⟨index, hn⟩).tag ≠ tag) :
    FindMaterial.loop s tag index false material =
      FindMaterial.loop s tag (index + 1) false material := by
  rw [FindMaterial.loop]
  simp only [hn, and_self, dite_true, ht, if_false]

/-- No material from `index` on carries the tag: the loop leaves `material` as it is. -/
theorem FindMaterial_loop_none (s : SceneManager α) (tag : String)
    (material : OBJECT_MATERIAL α) :
    ∀ (k index : Nat), s.m_objectMaterials.length - index = k →
      (∀ j : Fin s.m_objectMaterials.length, index ≤ j.val →
        (s.m_objectMaterials.get j).tag ≠ tag) →
      FindMaterial.loop s tag index false material = material := by
  intro k
  induction k with
  | zero =>
    intro index hk _
    exact FindMaterial_loop_past s tag index false material (by omega)
  | succ k ih =>
    intro index hk hall
    have hn : index < s.m_objectMaterials.length := by omega
    rw [FindMaterial_loop_miss s tag index material hn (hall ⟨index, hn⟩ (le_refl _))]
    exact ih (index + 1) (by omega) (fun j hj => hall j (by omega))

/-- Material `i` is the first from `index` on that carries the tag: the loop
copies its diffuse colour, specular colour and shininess into `material`. -/
theorem FindMaterial_loop_first (s : SceneManager α) (tag : String)
    (material : OBJECT_MATERIAL α) (i : Fin s.m_objectMaterials.length)
    (hti : (s.m_objectMaterials.get i).tag = tag) :
    ∀ (k index : Nat), i.val - index = k → index ≤ i.val →
      (∀ j : Fin s.m_objectMaterials.length, index ≤ j.val → j.val < i.val →
        (s.m_objectMaterials.get j).tag ≠ tag) →
      FindMaterial.loop s tag index false material =
        { material with
          diffuseColor := (s.m_objectMaterials.get i).diffuseColor
          specularColor := (s.m_objectMaterials.get i).specularColor
          shininess := (s.m_objectMaterials.get i).shininess } := by
  intro k
  induction k with
  | zero =>
    intro index hk hle _
    have hidx : index = i.val := by omega
    subst hidx
    exact FindMaterial_loop_hit s tag i.val material i.isLt hti
  | succ k ih =>
    intro index hk hle hall
    have hlt : index < i.val := by omega
    have hn : index < s.m_objectMaterials.length := by have := i.isLt; omega
    rw [FindMaterial_loop_miss s tag index material hn (hall ⟨index, hn⟩ (le_refl _) hlt)]
    exact ih (index + 1) (by omega) (by omega) (fun j hj hji => hall j (by omega) hji)

/-- A non-empty material list makes `FindMaterial` return `true`, whatever the tag. -/
theorem FindMaterial_fst_of_ne_nil (s : SceneManager α) (tag : String)
    (material : OBJECT_MATERIAL α) (h : s.m_objectMaterials ≠ []) :
    (s.FindMaterial tag material).1 = true := by
  have hlen : s.m_objectMaterials.length ≠ 0 := by
    simpa [List.length_eq_zero] using h
  simp [FindMaterial, hlen]

/-- A tag that some material carries has a first material carrying it. -/
theorem first_material (s : SceneManager α) (tag : String)
    (hex : ∃ m ∈ s.m_objectMaterials, m.tag = tag) :
    ∃ i : Fin s.m_objectMaterials.length, (s.m_objectMaterials.get i).tag = tag ∧
      ∀ j : Fin s.m_objectMaterials.length, j.val < i.val →
        (s.m_objectMaterials.get j).tag ≠ tag := by
  classical
  let P : Nat → Prop := fun n =>
    ∃ h : n < s.m_objectMaterials.length, (s.m_objectMaterials.get ⟨n, h⟩).tag = tag
  have hP : ∃ n, P n := by
    obtain ⟨m, hm, ht⟩ := hex
    obtain ⟨i, hi⟩ := List.mem_iff_get.mp hm
    exact ⟨i.val, i.isLt, by rw [← ht, ← hi]⟩
  obtain ⟨hlt, ht⟩ := Nat.find_spec hP
  refine ⟨⟨Nat.find hP, hlt⟩, ht, ?_⟩
  intro j hj habs
  exact Nat.find_min hP hj ⟨j.isLt, habs⟩

end SceneManager

theorem le_foldl_max (l : List Nat) : ∀ a : Nat, a ≤ l.foldl max a ∧ ∀ x ∈ l, x ≤ l.foldl max a := by
  induction l with
  | nil => intro a; simp
  | cons b l ih =>
    intro a
    obtain ⟨h1, h2⟩ := ih (max a b)
    refine ⟨le_trans (le_max_left a b) h1, ?_⟩
    intro x hx
    rcases List.mem_cons.mp hx with rfl | hx
    · exact le_trans (le_max_right a x) h1
    · exact h2 x hx

/-- The name `glGenTextures` hands out is not in use before the call and is in use after it. -/
theorem glGenTextures_fresh (gl : GLState) :
    (glGenTextures gl).1 ∉ gl.names ∧ (glGenTextures gl).1 ∈ (glGenTextures gl).2.names := by
  constructor
  · intro hmem
    have := (le_foldl_max gl.names 0).2 _ hmem
    simp only [glGenTextures] at this
    omega
  · simp [glGenTextures]

namespace SceneManager

variable {α : Type}

/-- The OpenGL context `CreateGLTexture` leaves after a successful upload. -/
theorem CreateGLTexture_ok (stbi_load : String → Option Image) (filename tag : String)
    (s : SceneManager α) (gl : GLState) (image : Image)
    (hn : s.m_loadedTextures < 16) (hload : stbi_load filename = some image)
    (hch : image.colorChannels = 3 ∨ image.colorChannels = 4) :
    ∃ gl' : GLState,
      CreateGLTexture stbi_load filename tag s gl =
        .ok (true,
          { s with
            m_loadedTextures := s.m_loadedTextures + 1
            m_textureIDs := Function.update s.m_textureIDs ⟨s.m_loadedTextures, hn⟩
              ⟨tag, (glGenTextures gl).1⟩ },
          gl') ∧
      gl'.names = (glGenTextures gl).2.names := by
  rcases hch with h3 | h4
  · simp only [CreateGLTexture, hload, h3, if_true, modifyEntry, hn, dite_true,
      Function.update_same, Function.update_idem]
    exact ⟨_, rfl, rfl⟩
  · have h43 : ¬ ((4 : Int) = 3) := by decide
    simp only [CreateGLTexture, hload, h4, h43, if_true, if_false, modifyEntry, hn, dite_true,
      Function.update_same, Function.update_idem]
    exact ⟨_, rfl, rfl⟩

/-- Without a decoded image of 3 or 4 channels `CreateGLTexture` returns `false`
and the object is as before. -/
theorem CreateGLTexture_rejects (stbi_load : String → Option Image) (filename tag : String)
    (s : SceneManager α) (gl : GLState)
    (h : stbi_load filename = none ∨
      ∃ image, stbi_load filename = some image ∧ image.colorChannels ≠ 3 ∧
        image.colorChannels ≠ 4) :
    ∃ gl' : GLState, CreateGLTexture stbi_load filename tag s gl = .ok (false, s, gl') := by
  rcases h with hnone | ⟨image, hload, h3, h4⟩
  · simp only [CreateGLTexture, hnone]
    exact ⟨_, rfl⟩
  · simp only [CreateGLTexture, hload, h3, h4, if_false]
    exact ⟨_, rfl⟩

end SceneManager

namespace SceneManager

variable {α : Type}

/-- The lookups after one more entry with tag `tag` has been put in slot
`m_loadedTextures`, the earlier entries being as before. -/
theorem FindTextureSlot_after_append (s s' : SceneManager α) (tag : String)
    (hn : s.m_loadedTextures < 16)
    (hcount : s'.m_loadedTextures = s.m_loadedTextures + 1)
    (hnew : (s'.m_textureIDs ⟨s.m_loadedTextures, hn⟩).tag = tag)
    (hold : ∀ j : Fin 16, j.val < s.m_loadedTextures → s'.m_textureIDs j = s.m_textureIDs j) :
    (s.FindTextureSlot tag = .ok (-1) →
        s'.FindTextureSlot tag = .ok (s.m_loadedTextures : Int)) ∧
      (s.FindTextureSlot tag ≠ .ok (-1) → s'.FindTextureSlot tag = s.FindTextureSlot tag) ∧
      ∀ tag' : String, tag' ≠ tag → s'.FindTextureSlot tag' = s.FindTextureSlot tag' := by
  have hfirst : ∀ (t : String) (i : Fin 16), i.val < s.m_loadedTextures →
      (s.m_textureIDs i).tag = t →
      (∀ j : Fin 16, j.val < i.val → (s.m_textureIDs j).tag ≠ t) →
      s.FindTextureSlot t = .ok (i.val : Int) ∧ s'.FindTextureSlot t = .ok (i.val : Int) := by
    intro t i hi ht hmin
    refine ⟨FindTextureSlot_first s t i hi ht hmin, ?_⟩
    apply FindTextureSlot_first s' t i (by omega)
    · rw [hold i hi]; exact ht
    · intro j hj
      rw [hold j (by omega)]
      exact hmin j hj
  refine ⟨?_, ?_, ?_⟩
  · intro hs
    rcases first_or_none s tag with ⟨i, hi, ht, hmin⟩ | hnone
    · have h1 := (hfirst tag i hi ht hmin).1
      rw [h1] at hs
      have := Except.ok.inj hs
      omega
    · apply FindTextureSlot_first s' tag ⟨s.m_loadedTextures, hn⟩ (by simp only; omega) hnew
      intro j hj
      rw [hold j hj]
      exact hnone j hj
  · intro hs
    rcases first_or_none s tag with ⟨i, hi, ht, hmin⟩ | hnone
    · rw [(hfirst tag i hi ht hmin).1, (hfirst tag i hi ht hmin).2]
    · exact absurd (FindTextureSlot_none s tag (by omega) hnone) hs
  · intro tag' hne
    rcases first_or_none s tag' with ⟨i, hi, ht, hmin⟩ | hnone
    · rw [(hfirst tag' i hi ht hmin).1, (hfirst tag' i hi ht hmin).2]
    · rw [FindTextureSlot_none s tag' (by omega) hnone]
      apply FindTextureSlot_none s' tag' (by omega)
      intro j hj
      by_cases hjn : j.val < s.m_loadedTextures
      · rw [hold j hjn]
        exact hnone j hjn
      · have hj' : j = ⟨s.m_loadedTextures, hn⟩ := Fin.ext (by simp only; omega)
        rw [hj', hnew]
        exact fun h => hne h.symm

end SceneManager

namespace SceneManager

variable {α : Type}

theorem FindTextureID_loop_found (s : SceneManager α) (tag : String) (index : Nat)
    (textureID : Int) : FindTextureID.loop s tag index textureID true = .ok textureID := by
  rw [FindTextureID.loop]
  simp

theorem FindTextureID_loop_hit (s : SceneManager α) (tag : String) (index : Nat)
    (textureID : Int) (hn : index < s.m_loadedTextures) (h16 : index < 16)
    (ht : (s.m_textureIDs ⟨index, h16⟩).tag = tag) :
    FindTextureID.loop s tag index textureID false =
      .ok (toInt32 (s.m_textureIDs ⟨index, h16⟩).ID) := by
  rw [FindTextureID.loop]
  simp [hn, entry_of_lt s index h16, ht, FindTextureID_loop_found]

theorem FindTextureID_loop_miss (s : SceneManager α) (tag : String) (index : Nat)
    (textureID : Int) (hn : index < s.m_loadedTextures) (h16 : index < 16)
    (ht : (s.m_textureIDs ⟨index, h16⟩).tag ≠ tag) :
    FindTextureID.loop s tag index textureID false =
      FindTextureID.loop s tag (index + 1) textureID false := by
  rw [FindTextureID.loop]
  simp [hn, entry_of_lt s index h16, ht]

/-- Entry `i` is the first from `index` on that carries the tag: the loop
yields its handle, converted to `int`. -/
theorem FindTextureID_loop_first (s : SceneManager α) (tag : String) (textureID : Int)
    (i : Fin 16) (hin : i.val < s.m_loadedTextures) (hti : (s.m_textureIDs i).tag = tag) :
    ∀ (k index : Nat), i.val - index = k → index ≤ i.val →
      (∀ j : Fin 16, index ≤ j.val → j.val < i.val → (s.m_textureIDs j).tag ≠ tag) →
      FindTextureID.loop s tag index textureID false = .ok (toInt32 (s.m_textureIDs i).ID) := by
  intro k
  induction k with
  | zero =>
    intro index hk hle _
    have hidx : index = i.val := by omega
    subst hidx
    exact FindTextureID_loop_hit s tag i.val textureID hin i.isLt hti
  | succ k ih =>
    intro index hk hle hall
    have hlt : index < i.val := by omega
    have hi : index < 16 := by have := i.isLt; omega
    rw [FindTextureID_loop_miss s tag index textureID (by omega) hi
      (hall ⟨index, hi⟩ (le_refl _) hlt)]
    exact ih (index + 1) (by omega) (by omega) (fun j hj hji => hall j (by omega) hji)

theorem FindTextureID_first (s : SceneManager α) (tag : String)
    (i : Fin 16) (hin : i.val < s.m_loadedTextures) (hti : (s.m_textureIDs i).tag = tag)
    (hall : ∀ j : Fin 16, j.val < i.val → (s.m_textureIDs j).tag ≠ tag) :
    s.FindTextureID tag = .ok (toInt32 (s.m_textureIDs i).ID) :=
  FindTextureID_loop_first s tag (-1) i hin hti _ 0 rfl (Nat.zero_le _) (fun j _ hj => hall j hj)

theorem BindGLTextures_loop_past (s : SceneManager α) (i : Nat) (gl : GLState)
    (h : ¬ i < s.m_loadedTextures) : BindGLTextures.loop s i gl = .ok gl := by
  rw [BindGLTextures.loop]
  simp [h]

theorem BindGLTextures_loop_step (s : SceneManager α) (i : Nat) (gl : GLState)
    (hn : i < s.m_loadedTextures) (h16 : i < 16) :
    BindGLTextures.loop s i gl =
      BindGLTextures.loop s (i + 1)
        (glBindTexture (glActiveTexture gl i) (s.m_textureIDs ⟨i, h16⟩).ID) := by
  rw [BindGLTextures.loop]
  simp [hn, entry_of_lt s i h16]

/-- The OpenGL context the loop of `BindGLTextures` ends in, started at `i`. -/
theorem BindGLTextures_loop_spec (s : SceneManager α) (h16 : s.m_loadedTextures ≤ 16) :
    ∀ (k i : Nat) (gl : GLState), s.m_loadedTextures - i = k →
      ∃ gl' : GLState, BindGLTextures.loop s i gl = .ok gl' ∧
        gl'.names = gl.names ∧ gl'.calls = gl.calls ∧
        gl'.activeTexture =
          (if i < s.m_loadedTextures then s.m_loadedTextures - 1 else gl.activeTexture) ∧
        (∀ j : Fin 16, i ≤ j.val → j.val < s.m_loadedTextures →
          gl'.binding2D j.val = (s.m_textureIDs j).ID) ∧
        (∀ u : Nat, u < i ∨ s.m_loadedTextures ≤ u → gl'.binding2D u = gl.binding2D u) := by
  intro k
  induction k with
  | zero =>
    intro i gl hk
    have hni : ¬ i < s.m_loadedTextures := by omega
    refine ⟨gl, BindGLTextures_loop_past s i gl hni, rfl, rfl, by simp [hni], ?_, ?_⟩
    · intro j hj hjn
      omega
    · intro u _
      rfl
  | succ k ih =>
    intro i gl hk
    have hn : i < s.m_loadedTextures := by omega
    have hi : i < 16 := by omega
    obtain ⟨gl', hrun, hnames, hcalls, hact, hbound, hrest⟩ :=
      ih (i + 1) (glBindTexture (glActiveTexture gl i) (s.m_textureIDs ⟨i, hi⟩).ID) (by omega)
    refine ⟨gl', ?_, ?_, ?_, ?_, ?_, ?_⟩
    · rw [BindGLTextures_loop_step s i gl hn hi, hrun]
    · rw [hnames]; rfl
    · rw [hcalls]; rfl
    · rw [hact]
      simp only [hn, if_true]
      split
      · rfl
      · simp only [glBindTexture, glActiveTexture]
        omega
    · intro j hj hjn
      by_cases hji : j.val = i
      · have hjeq : j = ⟨i, hi⟩ := Fin.ext hji
        rw [hji, hrest i (Or.inl (Nat.lt_succ_self i)), hjeq]
        simp [glBindTexture, glActiveTexture]
      · exact hbound j (by omega) hjn
    · intro u hu
      have hui : u ≠ i := by omega
      rw [hrest u (by omega)]
      simp [glBindTexture, glActiveTexture, Function.update_noteq hui]

/-- With more than 16 textures counted, the loop of `BindGLTextures` reads `m_textureIDs[16]`. -/
theorem BindGLTextures_loop_overflow (s : SceneManager α) (h16 : 16 < s.m_loadedTextures) :
    ∀ (k i : Nat) (gl : GLState), 16 - i = k → i ≤ 16 →
      BindGLTextures.loop s i gl = .error (.outOfBounds 16) := by
  intro k
  induction k with
  | zero =>
    intro i gl hk hi
    have h : i = 16 := by omega
    subst h
    rw [BindGLTextures.loop]
    simp [h16, entry]
  | succ k ih =>
    intro i gl hk hi
    have hi16 : i < 16 := by omega
    rw [BindGLTextures_loop_step s i gl (by omega) hi16]
    exact ih (i + 1) _ (by omega) (by omega)

/-- Two OpenGL contexts with the same fields are the same. -/
theorem GLState_eq (a b : GLState) (h1 : a.names = b.names)
    (h2 : a.activeTexture = b.activeTexture) (h3 : a.binding2D = b.binding2D)
    (h4 : a.calls = b.calls) : a = b := by
  cases a
  cases b
  simp only at h1 h2 h3 h4
  subst h1 h2 h3 h4
  rfl

/-- A second run of `BindGLTextures` changes nothing. -/
theorem BindGLTextures_twice (s : SceneManager α) (gl : GLState)
    (h16 : s.m_loadedTextures ≤ 16) :
    ∃ gl1 : GLState, s.BindGLTextures gl = .ok gl1 ∧ s.BindGLTextures gl1 = .ok gl1 := by
  obtain ⟨gl1, hrun1, hn1, hc1, ha1, hb1, hr1⟩ := BindGLTextures_loop_spec s h16 _ 0 gl rfl
  obtain ⟨gl2, hrun2, hn2, hc2, ha2, hb2, hr2⟩ := BindGLTextures_loop_spec s h16 _ 0 gl1 rfl
  refine ⟨gl1, hrun1, ?_⟩
  have heq : gl2 = gl1 := by
    apply GLState_eq gl2 gl1 hn2 _ _ hc2
    · rw [ha2, ha1]
      split <;> rfl
    · funext u
      by_cases hu : u < s.m_loadedTextures
      · have hu16 : u < 16 := by omega
        rw [hb2 ⟨u, hu16⟩ (Nat.zero_le _) hu, hb1 ⟨u, hu16⟩ (Nat.zero_le _) hu]
      · exact hr2 u (Or.inr (by omega))
  rw [← heq] at hrun2 ⊢
  exact hrun2

end SceneManager

/-! ## Lemmas on the binding protocol -/

namespace SceneManager

variable {α : Type}

/-- With a shader manager, `SetTransformations` appends one upload of the model matrix. -/
theorem SetTransformations_ok [Field α] (F : FloatOps α) (s : SceneManager α)
    (scale : vec3 α) (rotX rotY rotZ : α) (position : vec3 α)
    (hsm : s.m_pShaderManager = true) :
    ∃ M : mat4 α, ∀ pipeline : List (PipelineOp α),
      s.SetTransformations F scale rotX rotY rotZ position pipeline =
        pipeline ++ [.setMat4Value "model" M] :=
  ⟨glm.gtx.translate position * glm.gtx.rotate F (glm.radians F rotZ) ⟨0, 0, 1⟩ *
      glm.gtx.rotate F (glm.radians F rotY) ⟨0, 1, 0⟩ *
      glm.gtx.rotate F (glm.radians F rotX) ⟨1, 0, 0⟩ * glm.gtx.scale scale,
    fun pipeline => by simp only [SetTransformations, hsm, if_true, g_ModelName]⟩

/-- A tag that no material of a non-empty list carries: `FindMaterial` returns
`true` and hands `material` back as it received it. -/
theorem FindMaterial_unmatched (s : SceneManager α) (tag : String)
    (material : OBJECT_MATERIAL α) (hne : s.m_objectMaterials ≠ [])
    (hno : ∀ m ∈ s.m_objectMaterials, m.tag ≠ tag) :
    s.FindMaterial tag material = (true, material) := by
  have hlen : s.m_objectMaterials.length ≠ 0 := by
    simpa [List.length_eq_zero] using hne
  have hloop : FindMaterial.loop s tag 0 false material = material :=
    FindMaterial_loop_none s tag material _ 0 rfl
      (fun j _ => hno _ (List.get_mem s.m_objectMaterials j.val j.isLt))
  rw [FindMaterial, if_neg hlen, hloop]

/-- The uploads of `SetShaderMaterial` for a tag whose first material is `i`. -/
theorem SetShaderMaterial_first (s : SceneManager α) (tag : String)
    (uninit : OBJECT_MATERIAL α) (pipeline : List (PipelineOp α))
    (hsm : s.m_pShaderManager = true) (i : Fin s.m_objectMaterials.length)
    (hti : (s.m_objectMaterials.get i).tag = tag)
    (hmin : ∀ j : Fin s.m_objectMaterials.length, j.val < i.val →
      (s.m_objectMaterials.get j).tag ≠ tag) :
    s.SetShaderMaterial tag uninit pipeline =
      .ok (pipeline ++
        [.setVec3Value "material.diffuseColor" (s.m_objectMaterials.get i).diffuseColor,
         .setVec3Value "material.specularColor" (s.m_objectMaterials.get i).specularColor,
         .setFloatValue "material.shininess" (s.m_objectMaterials.get i).shininess]) := by
  have hpos : s.m_objectMaterials.length > 0 := by have := i.isLt; omega
  have hlen : s.m_objectMaterials.length ≠ 0 := by omega
  have hloop := FindMaterial_loop_first s tag uninit i hti _ 0 rfl
    (Nat.zero_le _) (fun j _ hj => hmin j hj)
  simp only [SetShaderMaterial, hpos, if_true, FindMaterial, hlen, if_false, hloop, hsm]

/-- With a shader manager, `SetShaderMaterial` appends nothing or three material uploads. -/
theorem SetShaderMaterial_ok (s : SceneManager α) (tag : String)
    (uninit : OBJECT_MATERIAL α) (hsm : s.m_pShaderManager = true) :
    ∃ mats : List (PipelineOp α),
      (∀ pipeline : List (PipelineOp α),
        s.SetShaderMaterial tag uninit pipeline = .ok (pipeline ++ mats)) ∧
      (mats = [] ∨ ∃ (d sp : vec3 α) (sh : α),
        mats = [.setVec3Value "material.diffuseColor" d,
          .setVec3Value "material.specularColor" sp, .setFloatValue "material.shininess" sh]) := by
  by_cases hpos : s.m_objectMaterials.length > 0
  · have hlen : s.m_objectMaterials.length ≠ 0 := by omega
    refine ⟨[.setVec3Value "material.diffuseColor" (s.FindMaterial tag uninit).2.diffuseColor,
      .setVec3Value "material.specularColor" (s.FindMaterial tag uninit).2.specularColor,
      .setFloatValue "material.shininess" (s.FindMaterial tag uninit).2.shininess], ?_,
      Or.inr ⟨_, _, _, rfl⟩⟩
    intro pipeline
    have hfst : (s.FindMaterial tag uninit).1 = true := by
      simp only [FindMaterial, hlen, if_false]
    simp only [SetShaderMaterial, hpos, if_true, hfst, hsm]
  · refine ⟨[], ?_, Or.inl rfl⟩
    intro pipeline
    simp only [SetShaderMaterial, hpos, if_false, List.append_nil]

/-- With a shader manager and at most 16 textures, `SetShaderTexture` enables
the flag and passes the slot that `FindTextureSlot` returns. -/
theorem SetShaderTexture_ok (s : SceneManager α) (textureTag : String)
    (hsm : s.m_pShaderManager = true) (h16 : s.m_loadedTextures ≤ 16) :
    ∃ slot : Int, s.FindTextureSlot textureTag = .ok slot ∧
      ∀ pipeline : List (PipelineOp α),
        s.SetShaderTexture textureTag pipeline =
          .ok (pipeline ++ [.setIntValue "bUseTexture" 1,
            .setSampler2DValue "objectTexture" slot]) := by
  have hret : ∃ slot : Int, s.FindTextureSlot textureTag = .ok slot := by
    rcases first_or_none s textureTag with ⟨i, hi, ht, hmin⟩ | hnone
    · exact ⟨_, FindTextureSlot_first s textureTag i hi ht hmin⟩
    · exact ⟨_, FindTextureSlot_none s textureTag h16 hnone⟩
  obtain ⟨slot, hslot⟩ := hret
  refine ⟨slot, hslot, fun pipeline => ?_⟩
  simp only [SetShaderTexture, hsm, if_true, hslot, g_UseTextureName, g_TextureValueName]

/-- Uploads of the model matrix and of a material do not write an integer uniform. -/
theorem uniformInt_append_uploads (name : String) (pipeline mats : List (PipelineOp α))
    (M : mat4 α)
    (hmats : mats = [] ∨ ∃ (d sp : vec3 α) (sh : α),
      mats = [.setVec3Value "material.diffuseColor" d,
        .setVec3Value "material.specularColor" sp, .setFloatValue "material.shininess" sh]) :
    uniformInt name (pipeline ++ [.setMat4Value "model" M] ++ mats) =
      uniformInt name pipeline := by
  rcases hmats with rfl | ⟨d, sp, sh, rfl⟩
  · simp [uniformInt, List.foldl_append]
  · simp [uniformInt, List.foldl_append]

end SceneManager

namespace SceneManager

variable {α : Type}

/-- What one `Render*` call emits for a placement whose material tag has the
first material `i`: uploads without a draw call, among them the three uploads
of material `i`, then the draw call of the placement's shape. -/
theorem Render_registered [Field α] (F : FloatOps α) (s : SceneManager α)
    (c : ObjectPlacement α) (uninit : OBJECT_MATERIAL α)
    (hsm : s.m_pShaderManager = true) (h16 : s.m_loadedTextures ≤ 16)
    (i : Fin s.m_objectMaterials.length)
    (hti : (s.m_objectMaterials.get i).tag = c.materialTag)
    (hmin : ∀ j : Fin s.m_objectMaterials.length, j.val < i.val →
      (s.m_objectMaterials.get j).tag ≠ c.materialTag) :
    ∃ pre post : List (PipelineOp α),
      (∀ op ∈ pre ++ post, op.isDraw = false) ∧
      ∀ pipeline : List (PipelineOp α),
        s.Render F c uninit pipeline =
          .ok (pipeline ++ (pre ++
            [.setVec3Value "material.diffuseColor" (s.m_objectMaterials.get i).diffuseColor,
             .setVec3Value "material.specularColor" (s.m_objectMaterials.get i).specularColor,
             .setFloatValue "material.shininess" (s.m_objectMaterials.get i).shininess] ++
            post ++ [c.shapeKind.draw])) := by
  obtain ⟨M, hM⟩ := SetTransformations_ok F s c.scale c.rotX c.rotY c.rotZ c.position hsm
  obtain ⟨slot, _, htex⟩ := SetShaderTexture_ok s c.textureTag hsm h16
  have hmat := fun pipeline => SetShaderMaterial_first s c.materialTag uninit pipeline hsm i hti hmin
  by_cases hu : c.useTexture = true
  · refine ⟨[.setMat4Value "model" M],
      [.setIntValue "bUseTexture" 1, .setSampler2DValue "objectTexture" slot], ?_, ?_⟩
    · intro op hop
      simp only [List.mem_append, List.mem_cons, List.mem_singleton, List.not_mem_nil,
        or_false] at hop
      rcases hop with rfl | rfl | rfl <;> rfl
    · intro pipeline
      cases hk : c.shapeKind <;>
        simp [Render, hk, RenderBox, RenderSphere, RenderCylinder, RenderCone,
          RenderTaperedCylinder, RenderPlane, hM, hmat, htex, hu, ShapeKind.draw]
  · refine ⟨[.setMat4Value "model" M], [], ?_, ?_⟩
    · intro op hop
      simp only [List.append_nil, List.mem_singleton] at hop
      subst hop
      rfl
    · intro pipeline
      cases hk : c.shapeKind <;>
        simp [Render, hk, RenderBox, RenderSphere, RenderCylinder, RenderCone,
          RenderTaperedCylinder, RenderPlane, hM, hmat, hu, ShapeKind.draw]

end SceneManager

namespace SceneManager

variable {α : Type}

/-- The slot of a tag, read off a list that gives the tag of every entry. -/
theorem FindTextureSlot_of_table (s : SceneManager α) (tags : List String)
    (htab : ∀ i : Fin 16, (s.m_textureIDs i).tag = tags.getD i.val "/0")
    (k : Fin 16) (hk : k.val < s.m_loadedTextures) (tag : String)
    (hkt : tags.getD k.val "/0" = tag)
    (hmin : ∀ j : Fin 16, j.val < k.val → tags.getD j.val "/0" ≠ tag) :
    s.FindTextureSlot tag = .ok (k.val : Int) := by
  apply FindTextureSlot_first s tag k hk
  · rw [htab k]; exact hkt
  · intro j hj
    rw [htab j]
    exact hmin j hj

/-- One successful `CreateGLTexture` on a registry whose entry tags are listed
by `tags`: the new tag joins the list. -/
theorem CreateGLTexture_step (stbi_load : String → Option Image) (filename tag : String)
    (s : SceneManager α) (gl : GLState) (tags : List String)
    (hcount : s.m_loadedTextures = tags.length) (hlen : tags.length < 16)
    (htab : ∀ i : Fin 16, (s.m_textureIDs i).tag = tags.getD i.val "/0")
    (hload : ∃ image, stbi_load filename = some image ∧
      (image.colorChannels = 3 ∨ image.colorChannels = 4)) :
    ∃ (s' : SceneManager α) (gl' : GLState),
      CreateGLTexture stbi_load filename tag s gl = .ok (true, s', gl') ∧
      s'.m_loadedTextures = (tags ++ [tag]).length ∧
      (∀ i : Fin 16, (s'.m_textureIDs i).tag = (tags ++ [tag]).getD i.val "/0") ∧
      s'.m_objectMaterials = s.m_objectMaterials ∧
      s'.m_pShaderManager = s.m_pShaderManager := by
  obtain ⟨image, himg, hch⟩ := hload
  have hn : s.m_loadedTextures < 16 := by omega
  obtain ⟨gl', hrun, _⟩ := CreateGLTexture_ok stbi_load filename tag s gl image hn himg hch
  refine ⟨_, gl', hrun, ?_, ?_, rfl, rfl⟩
  · simp only [List.length_append, List.length_singleton, hcount]
  · intro i
    by_cases hi : i = ⟨s.m_loadedTextures, hn⟩
    · subst hi
      simp [hcount, List.getD_eq_getElem?_getD]
    · have hival : i.val ≠ tags.length := by
        intro h
        apply hi
        exact Fin.ext (by simp only; omega)
      simp only [Function.update_noteq hi, htab i, List.getD_eq_getElem?_getD]
      by_cases hlt : i.val < tags.length
      · rw [List.getElem?_append_left hlt]
      · have hge : tags.length + 1 ≤ i.val := by omega
        rw [List.getElem?_eq_none (by omega), List.getElem?_eq_none (by simp; omega)]

/-- When the nine files decode with 3 or 4 channels, `LoadSceneTextures` on a
fresh object completes with nine textures, tagged in the order of the calls. -/
theorem LoadSceneTextures_ok (stbi_load : String → Option Image) (pShaderManager : Bool)
    (gl : GLState)
    (hload : ∀ f ∈ ["../../Utilities/textures/knife_handle.jpg",
        "../../Utilities/textures/seamless-wood3.jpg", "../../Utilities/textures/road.jpg",
        "../../Utilities/textures/blueTape.jpg", "../../Utilities/textures/cardboard.jpg",
        "../../Utilities/textures/drywall.jpg", "../../Utilities/textures/pen.jpg",
        "../../Utilities/textures/stainless.jpg", "../../Utilities/textures/napkinfinance.jpg"],
      ∃ image, stbi_load f = some image ∧
        (image.colorChannels = 3 ∨ image.colorChannels = 4)) :
    ∃ (s : SceneManager α) (gl' : GLState),
      LoadSceneTextures stbi_load (new pShaderManager : SceneManager α) gl = .ok (s, gl') ∧
      s.m_loadedTextures = 9 ∧ s.m_objectMaterials = [] ∧
      s.m_pShaderManager = pShaderManager ∧
      ∀ i : Fin 16, (s.m_textureIDs i).tag =
        ["cone", "cylinder", "plane", "tape", "cardboard", "chapstick", "pen", "solo",
          "book"].getD i.val "/0" := by
  have t0 : ∀ i : Fin 16, ((new pShaderManager : SceneManager α).m_textureIDs i).tag =
      ([] : List String).getD i.val "/0" := fun _ => rfl
  obtain ⟨s1, g1, r1, n1, t1, m1, p1⟩ := CreateGLTexture_step stbi_load
    "../../Utilities/textures/knife_handle.jpg" "cone" (new pShaderManager : SceneManager α)
    gl [] rfl (by decide) t0 (hload _ (by simp))
  obtain ⟨s2, g2, r2, n2, t2, m2, p2⟩ := CreateGLTexture_step stbi_load
    "../../Utilities/textures/seamless-wood3.jpg" "cylinder" s1 g1 _ n1 (by decide) t1
    (hload _ (by simp))
  obtain ⟨s3, g3, r3, n3, t3, m3, p3⟩ := CreateGLTexture_step stbi_load
    "../../Utilities/textures/road.jpg" "plane" s2 g2 _ n2 (by decide) t2 (hload _ (by simp))
  obtain ⟨s4, g4, r4, n4, t4, m4, p4⟩ := CreateGLTexture_step stbi_load
    "../../Utilities/textures/blueTape.jpg" "tape" s3 g3 _ n3 (by decide) t3 (hload _ (by simp))
  obtain ⟨s5, g5, r5, n5, t5, m5, p5⟩ := CreateGLTexture_step stbi_load
    "../../Utilities/textures/cardboard.jpg" "cardboard" s4 g4 _ n4 (by decide) t4
    (hload _ (by simp))
  obtain ⟨s6, g6, r6, n6, t6, m6, p6⟩ := CreateGLTexture_step stbi_load
    "../../Utilities/textures/drywall.jpg" "chapstick" s5 g5 _ n5 (by decide) t5
    (hload _ (by simp))
  obtain ⟨s7, g7, r7, n7, t7, m7, p7⟩ := CreateGLTexture_step stbi_load
    "../../Utilities/textures/pen.jpg" "pen" s6 g6 _ n6 (by decide) t6 (hload _ (by simp))
  obtain ⟨s8, g8, r8, n8, t8, m8, p8⟩ := CreateGLTexture_step stbi_load
    "../../Utilities/textures/stainless.jpg" "solo" s7 g7 _ n7 (by decide) t7 (hload _ (by simp))
  obtain ⟨s9, g9, r9, n9, t9, m9, p9⟩ := CreateGLTexture_step stbi_load
    "../../Utilities/textures/napkinfinance.jpg" "book" s8 g8 _ n8 (by decide) t8
    (hload _ (by simp))
  have h9 : s9.m_loadedTextures = 9 := n9
  obtain ⟨g10, r10, _⟩ := BindGLTextures_loop_spec s9 (by omega) _ 0 g9 rfl
  refine ⟨s9, g10, ?_, h9, ?_, ?_, t9⟩
  · simp only [LoadSceneTextures, r1, r2, r3, r4, r5, r6, r7, r8, r9, BindGLTextures, r10]
  · rw [m9, m8, m7, m6, m5, m4, m3, m2, m1]
    rfl
  · rw [p9, p8, p7, p6, p5, p4, p3, p2, p1]
    rfl

end SceneManager

/-! ## Lemmas on the transform -/

namespace glm

variable {α : Type} [Field α]

theorem mat4.mul_def (a b : mat4 α) : a * b = mat4.mul a b := rfl

theorem gtx_translate_eq (t : vec3 α) : gtx.translate t = Spec.Translation t := by
  simp [gtx.translate, translate, mat4.identity, vec4.add, vec4.scale, Spec.Translation]

theorem gtx_scale_eq (k : vec3 α) : gtx.scale k = Spec.Scale k := by
  simp [gtx.scale, scale, mat4.identity, vec4.scale, Spec.Scale]

theorem gtx_rotate_X (F : FloatOps α) (hF : F.inversesqrt 1 = 1) (θ : α) :
    gtx.rotate F θ ⟨1, 0, 0⟩ = Spec.RotationX F θ := by
  simp [gtx.rotate, rotate, normalize, dot, hF, mat4.identity, vec4.add, vec4.scale,
    Spec.RotationX]

theorem gtx_rotate_Y (F : FloatOps α) (hF : F.inversesqrt 1 = 1) (θ : α) :
    gtx.rotate F θ ⟨0, 1, 0⟩ = Spec.RotationY F θ := by
  simp [gtx.rotate, rotate, normalize, dot, hF, mat4.identity, vec4.add, vec4.scale,
    Spec.RotationY]

theorem gtx_rotate_Z (F : FloatOps α) (hF : F.inversesqrt 1 = 1) (θ : α) :
    gtx.rotate F θ ⟨0, 0, 1⟩ = Spec.RotationZ F θ := by
  simp [gtx.rotate, rotate, normalize, dot, hF, mat4.identity, vec4.add, vec4.scale,
    Spec.RotationZ]

theorem mulVec_mul (a b : mat4 α) (v : vec4 α) :
    mat4.mulVec (a * b) v = mat4.mulVec a (mat4.mulVec b v) := by
  simp only [mat4.mul_def, mat4.mul, mat4.mulVec, vec4.add, vec4.scale, vec4.mk.injEq]
  refine ⟨?_, ?_, ?_, ?_⟩ <;> ring

theorem mulVec_Scale (k p : vec3 α) :
    mat4.mulVec (Spec.Scale k) (Spec.homogeneous p) =
      Spec.homogeneous (Spec.scalePoint k p) := by
  simp [mat4.mulVec, vec4.add, vec4.scale, Spec.Scale, Spec.homogeneous, Spec.scalePoint]

theorem mulVec_RotationX (F : FloatOps α) (θ : α) (p : vec3 α) :
    mat4.mulVec (Spec.RotationX F θ) (Spec.homogeneous p) =
      Spec.homogeneous (Spec.Rx F θ p) := by
  simp only [mat4.mulVec, vec4.add, vec4.scale, Spec.RotationX, Spec.homogeneous, Spec.Rx,
    vec4.mk.injEq]
  refine ⟨?_, ?_, ?_, ?_⟩ <;> ring

theorem mulVec_RotationY (F : FloatOps α) (θ : α) (p : vec3 α) :
    mat4.mulVec (Spec.RotationY F θ) (Spec.homogeneous p) =
      Spec.homogeneous (Spec.Ry F θ p) := by
  simp only [mat4.mulVec, vec4.add, vec4.scale, Spec.RotationY, Spec.homogeneous, Spec.Ry,
    vec4.mk.injEq]
  refine ⟨?_, ?_, ?_, ?_⟩ <;> ring

theorem mulVec_RotationZ (F : FloatOps α) (θ : α) (p : vec3 α) :
    mat4.mulVec (Spec.RotationZ F θ) (Spec.homogeneous p) =
      Spec.homogeneous (Spec.Rz F θ p) := by
  simp only [mat4.mulVec, vec4.add, vec4.scale, Spec.RotationZ, Spec.homogeneous, Spec.Rz,
    vec4.mk.injEq]
  refine ⟨?_, ?_, ?_, ?_⟩ <;> ring

theorem mulVec_Translation (t p : vec3 α) :
    mat4.mulVec (Spec.Translation t) (Spec.homogeneous p) =
      Spec.homogeneous (Spec.movePoint t p) := by
  simp only [mat4.mulVec, vec4.add, vec4.scale, Spec.Translation, Spec.homogeneous,
    Spec.movePoint, vec4.mk.injEq]
  refine ⟨?_, ?_, ?_, ?_⟩ <;> ring

theorem model_mulVec (F : FloatOps α) (k t : vec3 α) (a b c : α) (p : vec3 α) :
    mat4.mulVec (Spec.Translation t * Spec.RotationZ F c * Spec.RotationY F b *
        Spec.RotationX F a * Spec.Scale k) (Spec.homogeneous p) =
      Spec.homogeneous (Spec.movePoint t (Spec.Rz F c (Spec.Ry F b (Spec.Rx F a
        (Spec.scalePoint k p))))) := by
  rw [mulVec_mul, mulVec_mul, mulVec_mul, mulVec_mul, mulVec_Scale, mulVec_RotationX,
    mulVec_RotationY, mulVec_RotationZ, mulVec_Translation]

/-- The model matrix of `SetTransformations` is the product the specification names. -/
theorem SetTransformations_eq (F : FloatOps α) (hF : F.inversesqrt 1 = 1)
    (s : SceneManager α) (k t : vec3 α) (a b c : α) (pipeline : List (PipelineOp α)) :
    SceneManager.SetTransformations F s k a b c t pipeline =
      if s.m_pShaderManager then
        pipeline ++ [.setMat4Value g_ModelName
          (Spec.Translation t * Spec.RotationZ F (radians F c) * Spec.RotationY F (radians F b) *
            Spec.RotationX F (radians F a) * Spec.Scale k)]
      else pipeline := by
  simp only [SceneManager.SetTransformations, gtx_translate_eq, gtx_scale_eq,
    gtx_rotate_X F hF, gtx_rotate_Y F hF, gtx_rotate_Z F hF]

end glm

/-! ## The claims -/

/-- C1: with `n ≤ 16` registered textures, `FindTextureSlot(tag)` returns a
value: the smallest index `i < n` whose entry has exactly the tag `tag`, and
`-1` when no entry among the first `n` has that tag. -/
theorem C1_FindTextureSlot_first_match {α : Type} (s : SceneManager α) (tag : String)
    (h16 : s.m_loadedTextures ≤ 16) :
    (∃ r : Int, s.FindTextureSlot tag = .ok r) ∧
      (∀ i : Fin 16, i.val < s.m_loadedTextures → (s.m_textureIDs i).tag = tag →
        (∀ j : Fin 16, j.val < i.val → (s.m_textureIDs j).tag ≠ tag) →
        s.FindTextureSlot tag = .ok (i.val : Int)) ∧
      ((∀ j : Fin 16, j.val < s.m_loadedTextures → (s.m_textureIDs j).tag ≠ tag) →
        s.FindTextureSlot tag = .ok (-1)) := by
  refine ⟨?_, fun i hin hti hall => SceneManager.FindTextureSlot_first s tag i hin hti hall,
    fun hall => SceneManager.FindTextureSlot_none s tag h16 hall⟩
  rcases SceneManager.first_or_none s tag with ⟨i, hi, ht, hmin⟩ | hnone
  · exact ⟨_, SceneManager.FindTextureSlot_first s tag i hi ht hmin⟩
  · exact ⟨_, SceneManager.FindTextureSlot_none s tag h16 hnone⟩

/-- Witness of C1: in the registry of "cone" and "cylinder" (2 ≤ 16 entries),
the slot of "cylinder" is 1 and the unregistered tag "plane" yields -1. -/
theorem C1_FindTextureSlot_first_match_witness :
    twoTextures.m_loadedTextures ≤ 16 ∧
      twoTextures.FindTextureSlot "cylinder" = .ok 1 ∧
      twoTextures.FindTextureSlot "plane" = .ok (-1) :=
  ⟨by decide,
   (C1_FindTextureSlot_first_match twoTextures "cylinder" (by decide)).2.1 ⟨1, by decide⟩
     (by decide) (by decide) (by decide),
   (C1_FindTextureSlot_first_match twoTextures "plane" (by decide)).2.2 (by decide)⟩

/-- C2, as the code has it: after `DefineObjectMaterials`, no material carries
the tag "glass", and `FindMaterial("glass", material)` returns `true` with
`material` untouched. -/
theorem C2_FindMaterial_unmatched_returns_true :
    (∀ m ∈ sceneMaterials.m_objectMaterials, m.tag ≠ "glass") ∧
      sceneMaterials.FindMaterial "glass" blankMaterial = (true, blankMaterial) := by
  constructor
  · simp [sceneMaterials, SceneManager.DefineObjectMaterials, SceneManager.new]
  · have hnone : SceneManager.FindMaterial.loop sceneMaterials "glass" 0 false blankMaterial =
        blankMaterial := by
      apply SceneManager.FindMaterial_loop_none sceneMaterials "glass" blankMaterial _ 0 rfl
      intro j _
      have hmem := List.get_mem sceneMaterials.m_objectMaterials j.val j.isLt
      revert hmem
      generalize sceneMaterials.m_objectMaterials.get j = m
      intro hmem
      simp [sceneMaterials, SceneManager.DefineObjectMaterials, SceneManager.new] at hmem
      rcases hmem with h | h | h | h | h | h | h | h <;> subst h <;> simp
    have hlen : sceneMaterials.m_objectMaterials.length ≠ 0 := by
      simp [sceneMaterials, SceneManager.DefineObjectMaterials, SceneManager.new]
    rw [SceneManager.FindMaterial, if_neg hlen, hnone]

/-- C3: when some registered material carries `tag`, `FindMaterial(tag, material)`
returns `true` and leaves in `material` the diffuse colour, specular colour and
shininess of the lowest-index material whose tag equals `tag`. -/
theorem C3_FindMaterial_first_registered {α : Type} (s : SceneManager α) (tag : String)
    (material : OBJECT_MATERIAL α) (hex : ∃ m ∈ s.m_objectMaterials, m.tag = tag) :
    ∃ i : Fin s.m_objectMaterials.length,
      (s.m_objectMaterials.get i).tag = tag ∧
      (∀ j : Fin s.m_objectMaterials.length, j.val < i.val →
        (s.m_objectMaterials.get j).tag ≠ tag) ∧
      (s.FindMaterial tag material).1 = true ∧
      (s.FindMaterial tag material).2.diffuseColor = (s.m_objectMaterials.get i).diffuseColor ∧
      (s.FindMaterial tag material).2.specularColor = (s.m_objectMaterials.get i).specularColor ∧
      (s.FindMaterial tag material).2.shininess = (s.m_objectMaterials.get i).shininess := by
  obtain ⟨i, hti, hmin⟩ := SceneManager.first_material s tag hex
  have hlen : s.m_objectMaterials.length ≠ 0 := by have := i.isLt; omega
  have hloop := SceneManager.FindMaterial_loop_first s tag material i hti _ 0 rfl
    (Nat.zero_le _) (fun j _ hj => hmin j hj)
  refine ⟨i, hti, hmin, ?_, ?_, ?_, ?_⟩ <;> simp [SceneManager.FindMaterial, hlen, hloop]

/-- Witness of C3: after `DefineObjectMaterials`, "cement" is found with the
values of the cement material. -/
theorem C3_FindMaterial_first_registered_witness :
    (∃ m ∈ sceneMaterials.m_objectMaterials, m.tag = "cement") ∧
      ∃ i : Fin sceneMaterials.m_objectMaterials.length,
        (sceneMaterials.m_objectMaterials.get i).tag = "cement" ∧
        (∀ j : Fin sceneMaterials.m_objectMaterials.length, j.val < i.val →
          (sceneMaterials.m_objectMaterials.get j).tag ≠ "cement") ∧
        (sceneMaterials.FindMaterial "cement" blankMaterial).1 = true ∧
        (sceneMaterials.FindMaterial "cement" blankMaterial).2.diffuseColor =
          (sceneMaterials.m_objectMaterials.get i).diffuseColor ∧
        (sceneMaterials.FindMaterial "cement" blankMaterial).2.specularColor =
          (sceneMaterials.m_objectMaterials.get i).specularColor ∧
        (sceneMaterials.FindMaterial "cement" blankMaterial).2.shininess =
          (sceneMaterials.m_objectMaterials.get i).shininess :=
  have hex : ∃ m ∈ sceneMaterials.m_objectMaterials, m.tag = "cement" := by
    simp [sceneMaterials, SceneManager.DefineObjectMaterials, SceneManager.new]
  ⟨hex, C3_FindMaterial_first_registered sceneMaterials "cement" blankMaterial hex⟩

/-- C4: in exact real arithmetic, the model matrix `SetTransformations` uploads
is `Translation(t) * RotationZ(rz) * RotationY(ry) * RotationX(rx) * Scale(s)`
with the angles converted from degrees to radians, and it maps every local
point `p` to `t + Rz(Ry(Rx(s componentwise-times p)))`; with `s = (2,1,1)`,
rotation `(0,90,0)` and `t = (5,0,0)` the uploaded matrix maps `(1,0,0)` to
`(5,0,-2)`. -/
theorem C4_SetTransformations_model_matrix :
    (∀ (s : SceneManager ℝ) (scaleXYZ positionXYZ : vec3 ℝ) (rx ry rz : ℝ)
        (pipeline : List (PipelineOp ℝ)),
      SceneManager.SetTransformations ⟨Real.cos, Real.sin, fun x => 1 / Real.sqrt x, Real.pi⟩
          s scaleXYZ rx ry rz positionXYZ pipeline =
        (if s.m_pShaderManager then
          pipeline ++ [.setMat4Value "model"
            (Spec.Translation positionXYZ *
              Spec.RotationZ ⟨Real.cos, Real.sin, fun x => 1 / Real.sqrt x, Real.pi⟩
                (rz * (Real.pi / 180)) *
              Spec.RotationY ⟨Real.cos, Real.sin, fun x => 1 / Real.sqrt x, Real.pi⟩
                (ry * (Real.pi / 180)) *
              Spec.RotationX ⟨Real.cos, Real.sin, fun x => 1 / Real.sqrt x, Real.pi⟩
                (rx * (Real.pi / 180)) *
              Spec.Scale scaleXYZ)]
        else pipeline) ∧
      ∀ p : vec3 ℝ,
        glm.mat4.mulVec
          (Spec.Translation positionXYZ *
              Spec.RotationZ ⟨Real.cos, Real.sin, fun x => 1 / Real.sqrt x, Real.pi⟩
                (rz * (Real.pi / 180)) *
              Spec.RotationY ⟨Real.cos, Real.sin, fun x => 1 / Real.sqrt x, Real.pi⟩
                (ry * (Real.pi / 180)) *
              Spec.RotationX ⟨Real.cos, Real.sin, fun x => 1 / Real.sqrt x, Real.pi⟩
                (rx * (Real.pi / 180)) *
              Spec.Scale scaleXYZ) (Spec.homogeneous p) =
          Spec.homogeneous (Spec.movePoint positionXYZ
            (Spec.Rz ⟨Real.cos, Real.sin, fun x => 1 / Real.sqrt x, Real.pi⟩ (rz * (Real.pi / 180))
              (Spec.Ry ⟨Real.cos, Real.sin, fun x => 1 / Real.sqrt x, Real.pi⟩ (ry * (Real.pi / 180))
                (Spec.Rx ⟨Real.cos, Real.sin, fun x => 1 / Real.sqrt x, Real.pi⟩ (rx * (Real.pi / 180))
                  (Spec.scalePoint scaleXYZ p)))))) ∧
    (∃ m : mat4 ℝ,
      SceneManager.SetTransformations ⟨Real.cos, Real.sin, fun x => 1 / Real.sqrt x, Real.pi⟩
          (SceneManager.new true) ⟨2, 1, 1⟩ 0 90 0 ⟨5, 0, 0⟩ [] = [.setMat4Value "model" m] ∧
        glm.mat4.mulVec m ⟨1, 0, 0, 1⟩ = ⟨5, 0, -2, 1⟩) := by
  have hF : (FloatOps.mk Real.cos Real.sin (fun x => 1 / Real.sqrt x) Real.pi).inversesqrt 1
      = 1 := by simp
  refine ⟨fun s k t a b c pipeline => ⟨?_, fun p => glm.model_mulVec _ k t _ _ _ p⟩, ?_⟩
  · rw [glm.SetTransformations_eq _ hF]
    rfl
  · have key : ∀ F : FloatOps ℝ,
        F = ⟨Real.cos, Real.sin, fun x => 1 / Real.sqrt x, Real.pi⟩ →
        ∃ m : mat4 ℝ,
          SceneManager.SetTransformations F (SceneManager.new true) ⟨2, 1, 1⟩ 0 90 0 ⟨5, 0, 0⟩ [] =
            [.setMat4Value "model" m] ∧
          glm.mat4.mulVec m ⟨1, 0, 0, 1⟩ = ⟨5, 0, -2, 1⟩ := by
      intro F hFd
      have hF1 : F.inversesqrt 1 = 1 := by subst hFd; simp
      refine ⟨Spec.Translation ⟨5, 0, 0⟩ * Spec.RotationZ F (glm.radians F 0) *
        Spec.RotationY F (glm.radians F 90) * Spec.RotationX F (glm.radians F 0) *
        Spec.Scale ⟨2, 1, 1⟩, ?_, ?_⟩
      · rw [glm.SetTransformations_eq F hF1]
        simp only [SceneManager.new, if_true, List.nil_append, g_ModelName]
      · have h := glm.model_mulVec F ⟨2, 1, 1⟩ ⟨5, 0, 0⟩ (glm.radians F 0) (glm.radians F 90)
          (glm.radians F 0) ⟨1, 0, 0⟩
        have h90 : (90 : ℝ) * (Real.pi / 180) = Real.pi / 2 := by ring
        simp only [Spec.homogeneous] at h
        rw [h]
        subst hFd
        simp [Spec.movePoint, Spec.Rz, Spec.Ry, Spec.Rx, Spec.scalePoint, glm.radians, h90]
    exact key _ rfl

/-- C5, as the code has it: with all 16 slots taken and an image of 3 channels,
`CreateGLTexture` makes no capacity test and stores to `m_textureIDs[16]`, past
the end of the 16-entry table, instead of returning `false`. -/
theorem C5_CreateGLTexture_full_registry_overflows :
    fullRegistry.m_loadedTextures = 16 ∧
      SceneManager.CreateGLTexture (decodeWith 3) "brick.jpg" "brick" fullRegistry
        (glWithNames 16) = .error (.outOfBounds 16) := by
  constructor
  · rfl
  · simp [SceneManager.CreateGLTexture, SceneManager.modifyEntry, decodeWith, fullRegistry]

/-- C6: when the image cannot be decoded, or decodes with a channel count other
than 3 and 4, `CreateGLTexture` returns `false` and the object after the call is
the object before it: same texture count, same entries. -/
theorem C6_CreateGLTexture_rejects_without_entry {α : Type}
    (stbi_load : String → Option Image) (filename tag : String)
    (s : SceneManager α) (gl : GLState)
    (h : stbi_load filename = none ∨
      ∃ image, stbi_load filename = some image ∧ image.colorChannels ≠ 3 ∧
        image.colorChannels ≠ 4) :
    ∃ (s' : SceneManager α) (gl' : GLState),
      SceneManager.CreateGLTexture stbi_load filename tag s gl = .ok (false, s', gl') ∧
      s'.m_loadedTextures = s.m_loadedTextures ∧ s'.m_textureIDs = s.m_textureIDs := by
  obtain ⟨gl', hgl⟩ := SceneManager.CreateGLTexture_rejects stbi_load filename tag s gl h
  exact ⟨s, gl', hgl, rfl, rfl⟩

/-- Witness of C6: a 2-channel image and an undecodable file, on the registry
of two textures. -/
theorem C6_CreateGLTexture_rejects_without_entry_witness :
    (∃ (s' : SceneManager ℚ) (gl' : GLState),
      SceneManager.CreateGLTexture (decodeWith 2) "grey.png" "grey" twoTextures
        (glWithNames 2) = .ok (false, s', gl') ∧
      s'.m_loadedTextures = 2 ∧ s'.m_textureIDs = twoTextures.m_textureIDs) ∧
    (∃ (s' : SceneManager ℚ) (gl' : GLState),
      SceneManager.CreateGLTexture decodeNothing "missing.jpg" "missing" twoTextures
        (glWithNames 2) = .ok (false, s', gl') ∧
      s'.m_loadedTextures = 2 ∧ s'.m_textureIDs = twoTextures.m_textureIDs) :=
  ⟨C6_CreateGLTexture_rejects_without_entry (decodeWith 2) "grey.png" "grey" twoTextures
      (glWithNames 2) (Or.inr ⟨⟨64, 64, 2⟩, rfl, by decide, by decide⟩),
   C6_CreateGLTexture_rejects_without_entry decodeNothing "missing.jpg" "missing" twoTextures
      (glWithNames 2) (Or.inl rfl)⟩

/-- C7: with `n < 16` textures registered and an image of 3 or 4 channels,
`CreateGLTexture(file, tag)` returns `true`, the count becomes `n + 1`, entry
`n` holds `tag` and the handle `glGenTextures` has just handed out (not in use
before, in use after), and entries `0 .. n-1` are unchanged; afterwards
`FindTextureSlot(tag)` is `n` when `tag` was not registered before and the
earlier slot when it was, and `FindTextureSlot` of every other tag is as before. -/
theorem C7_CreateGLTexture_appends {α : Type}
    (stbi_load : String → Option Image) (filename tag : String)
    (s : SceneManager α) (gl : GLState) (image : Image)
    (hn : s.m_loadedTextures < 16) (hload : stbi_load filename = some image)
    (hch : image.colorChannels = 3 ∨ image.colorChannels = 4) :
    ∃ (s' : SceneManager α) (gl' : GLState),
      SceneManager.CreateGLTexture stbi_load filename tag s gl = .ok (true, s', gl') ∧
      s'.m_loadedTextures = s.m_loadedTextures + 1 ∧
      s'.m_textureIDs ⟨s.m_loadedTextures, hn⟩ = ⟨tag, (glGenTextures gl).1⟩ ∧
      (glGenTextures gl).1 ∉ gl.names ∧ (glGenTextures gl).1 ∈ gl'.names ∧
      (∀ j : Fin 16, j.val < s.m_loadedTextures → s'.m_textureIDs j = s.m_textureIDs j) ∧
      (s.FindTextureSlot tag = .ok (-1) →
        s'.FindTextureSlot tag = .ok (s.m_loadedTextures : Int)) ∧
      (s.FindTextureSlot tag ≠ .ok (-1) → s'.FindTextureSlot tag = s.FindTextureSlot tag) ∧
      ∀ tag' : String, tag' ≠ tag → s'.FindTextureSlot tag' = s.FindTextureSlot tag' := by
  obtain ⟨gl', hrun, hnames⟩ :=
    SceneManager.CreateGLTexture_ok stbi_load filename tag s gl image hn hload hch
  have hnew : (Function.update s.m_textureIDs ⟨s.m_loadedTextures, hn⟩
      (⟨tag, (glGenTextures gl).1⟩ : TEXTURE_INFO)) ⟨s.m_loadedTextures, hn⟩ =
      ⟨tag, (glGenTextures gl).1⟩ := Function.update_same _ _ _
  have hold : ∀ j : Fin 16, j.val < s.m_loadedTextures →
      (Function.update s.m_textureIDs ⟨s.m_loadedTextures, hn⟩
        (⟨tag, (glGenTextures gl).1⟩ : TEXTURE_INFO)) j = s.m_textureIDs j := by
    intro j hj
    apply Function.update_noteq
    intro habs
    rw [habs] at hj
    exact Nat.lt_irrefl _ hj
  refine ⟨_, gl', hrun, rfl, hnew, (glGenTextures_fresh gl).1, ?_, hold, ?_⟩
  · rw [hnames]
    exact (glGenTextures_fresh gl).2
  · exact SceneManager.FindTextureSlot_after_append s _ tag hn rfl
      (congrArg TEXTURE_INFO.tag hnew) hold

/-- Witness of C7: on the registry of "cone" and "cylinder", registering
"plane" from a 3-channel image puts it in slot 2. -/
theorem C7_CreateGLTexture_appends_witness :
    ∃ (s' : SceneManager ℚ) (gl' : GLState),
      SceneManager.CreateGLTexture (decodeWith 3) "road.jpg" "plane" twoTextures
        (glWithNames 2) = .ok (true, s', gl') ∧
      s'.m_loadedTextures = 3 ∧
      s'.m_textureIDs ⟨2, by decide⟩ = ⟨"plane", 3⟩ ∧
      s'.FindTextureSlot "plane" = .ok 2 ∧
      s'.FindTextureSlot "cone" = .ok 0 := by
  obtain ⟨s', gl', hrun, hcount, hentry, _, _, _, hfresh, hkept, hother⟩ :=
    C7_CreateGLTexture_appends (decodeWith 3) "road.jpg" "plane" twoTextures (glWithNames 2)
      ⟨64, 64, 3⟩ (by decide) rfl (Or.inl rfl)
  have hplane : twoTextures.FindTextureSlot "plane" = .ok (-1) :=
    SceneManager.FindTextureSlot_none twoTextures "plane" (by decide) (by decide)
  have hcone : twoTextures.FindTextureSlot "cone" = .ok 0 :=
    SceneManager.FindTextureSlot_first twoTextures "cone" ⟨0, by decide⟩ (by decide) (by decide)
      (by decide)
  refine ⟨s', gl', hrun, hcount, ?_, ?_, ?_⟩
  · exact hentry
  · exact hfresh hplane
  · rw [hother "cone" (by decide), hcone]

/-- C8: with `n ≤ 16` registered textures, `BindGLTextures` leaves the handle of
entry `i` bound on texture unit `i` for every `i < n` and the units from `n` on
as they were; so for every registered tag the unit numbered
`FindTextureSlot(tag)`, the number `SetShaderTexture` passes as the sampler,
holds the handle that `FindTextureID(tag)` returns (as an `int`). -/
theorem C8_BindGLTextures_units_hold_handles {α : Type} (s : SceneManager α) (gl : GLState)
    (h16 : s.m_loadedTextures ≤ 16) :
    ∃ gl' : GLState, s.BindGLTextures gl = .ok gl' ∧
      (∀ i : Fin 16, i.val < s.m_loadedTextures →
        gl'.binding2D i.val = (s.m_textureIDs i).ID) ∧
      (∀ u : Nat, s.m_loadedTextures ≤ u → gl'.binding2D u = gl.binding2D u) ∧
      (∀ tag : String,
        (∃ i : Fin 16, i.val < s.m_loadedTextures ∧ (s.m_textureIDs i).tag = tag) →
        ∃ slot : Nat, slot < s.m_loadedTextures ∧
          s.FindTextureSlot tag = .ok (slot : Int) ∧
          (∀ pipeline : List (PipelineOp α), s.m_pShaderManager = true →
            s.SetShaderTexture tag pipeline =
              .ok (pipeline ++ [.setIntValue "bUseTexture" 1,
                .setSampler2DValue "objectTexture" (slot : Int)])) ∧
          s.FindTextureID tag = .ok (toInt32 (gl'.binding2D slot))) := by
  obtain ⟨gl', hrun, _, _, _, hbound, hrest⟩ :=
    SceneManager.BindGLTextures_loop_spec s h16 _ 0 gl rfl
  refine ⟨gl', hrun, fun i hi => hbound i (Nat.zero_le _) hi,
    fun u hu => hrest u (Or.inr hu), ?_⟩
  intro tag hex
  rcases SceneManager.first_or_none s tag with ⟨i, hi, ht, hmin⟩ | hnone
  · have hslot := SceneManager.FindTextureSlot_first s tag i hi ht hmin
    refine ⟨i.val, hi, hslot, ?_, ?_⟩
    · intro pipeline hsm
      simp only [SceneManager.SetShaderTexture, hsm, if_true, hslot, g_UseTextureName,
        g_TextureValueName]
    · rw [hbound i (Nat.zero_le _) hi]
      exact SceneManager.FindTextureID_first s tag i hi ht hmin
  · obtain ⟨i, hi, ht⟩ := hex
    exact absurd ht (hnone i hi)

/-- Witness of C8: for the registry of "cone" (handle 1) and "cylinder"
(handle 2), units 0 and 1 hold 1 and 2, unit 5 is as before, and "cylinder" has
slot 1 and handle 2. -/
theorem C8_BindGLTextures_units_hold_handles_witness :
    twoTextures.m_loadedTextures ≤ 16 ∧
      ∃ gl' : GLState, twoTextures.BindGLTextures (glWithNames 2) = .ok gl' ∧
        gl'.binding2D 0 = 1 ∧ gl'.binding2D 1 = 2 ∧ gl'.binding2D 5 = 0 ∧
        ∃ slot : Nat, twoTextures.FindTextureSlot "cylinder" = .ok (slot : Int) ∧
          twoTextures.FindTextureID "cylinder" = .ok (toInt32 (gl'.binding2D slot)) := by
  obtain ⟨gl', hrun, hbound, hrest, htags⟩ :=
    C8_BindGLTextures_units_hold_handles twoTextures (glWithNames 2) (by decide)
  obtain ⟨slot, _, hslot, _, hid⟩ := htags "cylinder" ⟨⟨1, by decide⟩, by decide, by decide⟩
  exact ⟨by decide, gl', hrun, hbound ⟨0, by decide⟩ (by decide), hbound ⟨1, by decide⟩ (by decide),
    hrest 5 (by decide), slot, hslot, hid⟩

/-- C9: running `BindGLTextures` twice in succession ends in the same OpenGL
context (same unit-to-handle mapping) as running it once, for every object and
every initial context; the object itself is not written.  With at most 16
textures counted both runs complete. -/
theorem C9_BindGLTextures_idempotent {α : Type} (s : SceneManager α) (gl : GLState) :
    (s.BindGLTextures gl).bind s.BindGLTextures = s.BindGLTextures gl ∧
      (s.m_loadedTextures ≤ 16 →
        ∃ gl1 : GLState, s.BindGLTextures gl = .ok gl1 ∧ s.BindGLTextures gl1 = .ok gl1) := by
  refine ⟨?_, SceneManager.BindGLTextures_twice s gl⟩
  by_cases h16 : s.m_loadedTextures ≤ 16
  · obtain ⟨gl1, h1, h2⟩ := SceneManager.BindGLTextures_twice s gl h16
    rw [h1]
    exact h2
  · have herr : s.BindGLTextures gl = .error (.outOfBounds 16) :=
      SceneManager.BindGLTextures_loop_overflow s (by omega) _ 0 gl rfl (by omega)
    rw [herr]
    rfl

/-- Witness of C9: the registry of two textures, from a context with nothing bound. -/
theorem C9_BindGLTextures_idempotent_witness :
    twoTextures.m_loadedTextures ≤ 16 ∧
      ∃ gl1 : GLState, twoTextures.BindGLTextures (glWithNames 2) = .ok gl1 ∧
        twoTextures.BindGLTextures gl1 = .ok gl1 :=
  ⟨by decide, (C9_BindGLTextures_idempotent twoTextures (glWithNames 2)).2 (by decide)⟩

/-- C10, as the code has it: `DestroyGLTextures` calls `glGenTextures` on every
slot.  On the registry holding the handles 1 and 2, with the names 1 and 2 in
use, one run leaves 1 and 2 in use next to the new names 3 and 4, which it
writes into the registry; a second run takes the names 5 and 6 as well and
writes those into the registry. -/
theorem C10_DestroyGLTextures_generates_names :
    (twoTextures.m_textureIDs 0).ID = 1 ∧ (twoTextures.m_textureIDs 1).ID = 2 ∧
    (glWithNames 2).names = [1, 2] ∧
    (SceneManager.DestroyGLTextures twoTextures (glWithNames 2)).map namesAndHandles =
      .ok ([1, 2, 3, 4], 3, 4) ∧
    ((SceneManager.DestroyGLTextures twoTextures (glWithNames 2)).bind
        (fun r => SceneManager.DestroyGLTextures r.1 r.2)).map namesAndHandles =
      .ok ([1, 2, 3, 4, 5, 6], 5, 6) := by
  refine ⟨rfl, rfl, rfl, ?_, ?_⟩
  · simp [SceneManager.DestroyGLTextures, SceneManager.DestroyGLTextures.loop,
      SceneManager.modifyEntry, twoTextures, glWithNames, glGenTextures, namesAndHandles,
      Except.map, List.range, List.range.loop, Function.update]
  · simp [SceneManager.DestroyGLTextures, SceneManager.DestroyGLTextures.loop,
      SceneManager.modifyEntry, twoTextures, glWithNames, glGenTextures, namesAndHandles,
      Except.map, Except.bind, List.range, List.range.loop, Function.update]

/-- C11, as the code has it: after `DefineObjectMaterials` no material carries
the tag "glass", and `SetShaderMaterial("glass")` still writes
`material.diffuseColor`, `material.specularColor` and `material.shininess`,
with the content of its uninitialised local `material`. -/
theorem C11_SetShaderMaterial_unmatched_uploads :
    (∀ m ∈ sceneMaterials.m_objectMaterials, m.tag ≠ "glass") ∧
      sceneMaterials.SetShaderMaterial "glass" blankMaterial [] =
        .ok [.setVec3Value "material.diffuseColor" blankMaterial.diffuseColor,
          .setVec3Value "material.specularColor" blankMaterial.specularColor,
          .setFloatValue "material.shininess" blankMaterial.shininess] := by
  have hno : ∀ m ∈ sceneMaterials.m_objectMaterials, m.tag ≠ "glass" := by
    simp [sceneMaterials, SceneManager.DefineObjectMaterials, SceneManager.new]
  have hne : sceneMaterials.m_objectMaterials ≠ [] := by
    simp [sceneMaterials, SceneManager.DefineObjectMaterials, SceneManager.new]
  have hpos : sceneMaterials.m_objectMaterials.length > 0 :=
    List.length_pos.mpr hne
  have hsm : sceneMaterials.m_pShaderManager = true := rfl
  refine ⟨hno, ?_⟩
  simp only [SceneManager.SetShaderMaterial, hpos, if_true,
    SceneManager.FindMaterial_unmatched sceneMaterials "glass" blankMaterial hne hno, hsm,
    List.nil_append]

/-- C12, as the code has it: with `bUseTexture` enabled by an earlier textured
draw, `RenderBox` with `useTexture = false` does not set the flag to disabled;
it issues its draw call with the flag still at 1. -/
theorem C12_RenderBox_without_texture_flag_stays_enabled :
    uniformInt "bUseTexture" textureEnabled = some 1 ∧
      ∃ before : List (PipelineOp ℚ),
        texturedScene.RenderBox unrotatedOps ⟨1, 1, 1⟩ 0 0 0 ⟨0, 0, 0⟩ "wood" "" false
          blankMaterial textureEnabled = .ok (before ++ [.DrawBoxMesh]) ∧
        uniformInt "bUseTexture" before = some 1 := by
  have hsm : texturedScene.m_pShaderManager = true := rfl
  obtain ⟨M, hM⟩ := SceneManager.SetTransformations_ok unrotatedOps texturedScene
    ⟨1, 1, 1⟩ 0 0 0 ⟨0, 0, 0⟩ hsm
  obtain ⟨mats, hmats, hshape⟩ :=
    SceneManager.SetShaderMaterial_ok texturedScene "wood" blankMaterial hsm
  refine ⟨rfl, textureEnabled ++ [.setMat4Value "model" M] ++ mats, ?_, ?_⟩
  · simp only [SceneManager.RenderBox, hM, hmats, Bool.false_eq_true, if_false]
  · rw [SceneManager.uniformInt_append_uploads "bUseTexture" textureEnabled mats M hshape]
    rfl

/-- C13: for every sequence of `Render*` calls whose material tags are all
registered (with a shader manager and at most 16 textures), the pipeline trace
grows by one segment per call, in order; each segment ends with the draw call
of its own object, holds no other draw call, and holds the uploads of the
diffuse colour, specular colour and shininess of the first-registered material
with the object's tag.  With the materials of `DefineObjectMaterials`, a box
tagged "wood" then a plane tagged "cement" upload diffuse (0.4,0.25,0.15) and
shininess 8.0 before the first draw call, diffuse (0.6,0.6,0.6) and shininess
4.0 before the second. -/
theorem C13_RenderAll_uploads_each_material :
    (∀ {α : Type} [Field α] (F : FloatOps α) (s : SceneManager α)
        (uninit : OBJECT_MATERIAL α) (calls : List (ObjectPlacement α))
        (pipeline : List (PipelineOp α)),
      s.m_pShaderManager = true → s.m_loadedTextures ≤ 16 →
      (∀ c ∈ calls, ∃ m ∈ s.m_objectMaterials, m.tag = c.materialTag) →
      ∃ segments : List (List (PipelineOp α)),
        s.RenderAll F uninit calls pipeline = .ok (pipeline ++ segments.flatten) ∧
        List.Forall₂
          (fun (c : ObjectPlacement α) (segment : List (PipelineOp α)) =>
            ∃ (i : Fin s.m_objectMaterials.length) (pre post : List (PipelineOp α)),
              (s.m_objectMaterials.get i).tag = c.materialTag ∧
              (∀ j : Fin s.m_objectMaterials.length, j.val < i.val →
                (s.m_objectMaterials.get j).tag ≠ c.materialTag) ∧
              (∀ op ∈ pre ++ post, op.isDraw = false) ∧
              segment = pre ++
                [.setVec3Value "material.diffuseColor" (s.m_objectMaterials.get i).diffuseColor,
                 .setVec3Value "material.specularColor"
                   (s.m_objectMaterials.get i).specularColor,
                 .setFloatValue "material.shininess" (s.m_objectMaterials.get i).shininess] ++
                post ++ [c.shapeKind.draw])
          calls segments) ∧
    (∃ M1 M2 : mat4 ℚ,
      sceneMaterials.RenderAll unrotatedOps blankMaterial woodThenCement [] =
        .ok [.setMat4Value "model" M1,
          .setVec3Value "material.diffuseColor" ⟨0.4, 0.25, 0.15⟩,
          .setVec3Value "material.specularColor" ⟨0.2, 0.2, 0.2⟩,
          .setFloatValue "material.shininess" 8.0,
          .DrawBoxMesh,
          .setMat4Value "model" M2,
          .setVec3Value "material.diffuseColor" ⟨0.6, 0.6, 0.6⟩,
          .setVec3Value "material.specularColor" ⟨0.2, 0.2, 0.2⟩,
          .setFloatValue "material.shininess" 4.0,
          .DrawPlaneMesh]) := by
  constructor
  · intro α _ F s uninit calls
    induction calls with
    | nil =>
      intro pipeline _ _ _
      exact ⟨[], by simp [SceneManager.RenderAll], List.Forall₂.nil⟩
    | cons c cs ih =>
      intro pipeline hsm h16 hreg
      obtain ⟨i, hti, hmin⟩ := SceneManager.first_material s c.materialTag
        (hreg c (List.mem_cons_self c cs))
      obtain ⟨pre, post, hdraw, hrun⟩ :=
        SceneManager.Render_registered F s c uninit hsm h16 i hti hmin
      obtain ⟨segments, hrest, hall⟩ := ih (pipeline ++ (pre ++
        [.setVec3Value "material.diffuseColor" (s.m_objectMaterials.get i).diffuseColor,
         .setVec3Value "material.specularColor" (s.m_objectMaterials.get i).specularColor,
         .setFloatValue "material.shininess" (s.m_objectMaterials.get i).shininess] ++
        post ++ [c.shapeKind.draw])) hsm h16
        (fun c' hc' => hreg c' (List.mem_cons_of_mem c hc'))
      refine ⟨_ :: segments, ?_, List.Forall₂.cons ⟨i, pre, post, hti, hmin, hdraw, rfl⟩ hall⟩
      simp only [SceneManager.RenderAll, hrun]
      rw [hrest, List.flatten_cons, List.append_assoc]
  · have hsm : sceneMaterials.m_pShaderManager = true := rfl
    obtain ⟨M1, hM1⟩ := SceneManager.SetTransformations_ok unrotatedOps sceneMaterials
      ⟨1, 1, 1⟩ 0 0 0 ⟨0, 0, 0⟩ hsm
    have hwood := fun pipeline => SceneManager.SetShaderMaterial_first sceneMaterials "wood"
      blankMaterial pipeline hsm ⟨0, by decide⟩ rfl (fun j hj => absurd hj (Nat.not_lt_zero _))
    have hcement := fun pipeline => SceneManager.SetShaderMaterial_first sceneMaterials "cement"
      blankMaterial pipeline hsm ⟨1, by decide⟩ rfl (by decide)
    refine ⟨M1, M1, ?_⟩
    simp only [woodThenCement, SceneManager.RenderAll, SceneManager.Render,
      SceneManager.RenderBox, SceneManager.RenderPlane, hM1, hwood, hcement,
      Bool.false_eq_true, if_false, List.nil_append, List.cons_append, List.append_assoc]
    rfl

/-- Witness of C13: the materials of `DefineObjectMaterials` and the two
placements tagged "wood" and "cement". -/
theorem C13_RenderAll_uploads_each_material_witness :
    sceneMaterials.m_pShaderManager = true ∧ sceneMaterials.m_loadedTextures ≤ 16 ∧
      (∀ c ∈ woodThenCement, ∃ m ∈ sceneMaterials.m_objectMaterials, m.tag = c.materialTag) ∧
      ∃ segments : List (List (PipelineOp ℚ)),
        sceneMaterials.RenderAll unrotatedOps blankMaterial woodThenCement [] =
          .ok ([] ++ segments.flatten) ∧
        segments.length = 2 := by
  have hreg : ∀ c ∈ woodThenCement,
      ∃ m ∈ sceneMaterials.m_objectMaterials, m.tag = c.materialTag := by
    simp [woodThenCement, sceneMaterials, SceneManager.DefineObjectMaterials, SceneManager.new]
  obtain ⟨segments, hrun, hall⟩ := C13_RenderAll_uploads_each_material.1 unrotatedOps
    sceneMaterials blankMaterial woodThenCement [] rfl (by decide) hreg
  exact ⟨rfl, by decide, hreg, segments, hrun, hall.length_eq.symm⟩

/-- C14: after `LoadSceneTextures` on a fresh object with all nine image loads
succeeding, then `DefineObjectMaterials`, at most 16 textures are registered
and each of the 18 placements of `RenderScene` has `useTexture = true`, a
material tag that a registered material carries, and a texture tag whose
`FindTextureSlot` is 0 or more. -/
theorem C14_scene_placements_resolve {α : Type} [Field α]
    (stbi_load : String → Option Image) (pShaderManager : Bool) (gl : GLState)
    (hload : ∀ f ∈ ["../../Utilities/textures/knife_handle.jpg",
        "../../Utilities/textures/seamless-wood3.jpg", "../../Utilities/textures/road.jpg",
        "../../Utilities/textures/blueTape.jpg", "../../Utilities/textures/cardboard.jpg",
        "../../Utilities/textures/drywall.jpg", "../../Utilities/textures/pen.jpg",
        "../../Utilities/textures/stainless.jpg", "../../Utilities/textures/napkinfinance.jpg"],
      ∃ image, stbi_load f = some image ∧
        (image.colorChannels = 3 ∨ image.colorChannels = 4)) :
    ∃ (s : SceneManager α) (gl' : GLState),
      SceneManager.LoadSceneTextures stbi_load (SceneManager.new pShaderManager) gl =
        .ok (s, gl') ∧
      (SceneManager.DefineObjectMaterials s).m_loadedTextures ≤ 16 ∧
      (SceneManager.RenderScene.placements : List (ObjectPlacement α)).length = 18 ∧
      ∀ c ∈ (SceneManager.RenderScene.placements : List (ObjectPlacement α)),
        c.useTexture = true ∧
        (∃ m ∈ (SceneManager.DefineObjectMaterials s).m_objectMaterials,
          m.tag = c.materialTag) ∧
        ∃ slot : Int,
          (SceneManager.DefineObjectMaterials s).FindTextureSlot c.textureTag = .ok slot ∧
          0 ≤ slot := by
  obtain ⟨s, gl', hrun, hcount, hmats, _, htab⟩ :=
    SceneManager.LoadSceneTextures_ok (α := α) stbi_load pShaderManager gl hload
  have hcount2 : (SceneManager.DefineObjectMaterials s).m_loadedTextures = 9 := hcount
  have htab2 : ∀ i : Fin 16, ((SceneManager.DefineObjectMaterials s).m_textureIDs i).tag =
      ["cone", "cylinder", "plane", "tape", "cardboard", "chapstick", "pen", "solo",
        "book"].getD i.val "/0" := htab
  have hslot : ∀ (k : Fin 16) (tag : String), k.val < 9 →
      ["cone", "cylinder", "plane", "tape", "cardboard", "chapstick", "pen", "solo",
        "book"].getD k.val "/0" = tag →
      (∀ j : Fin 16, j.val < k.val →
        ["cone", "cylinder", "plane", "tape", "cardboard", "chapstick", "pen", "solo",
          "book"].getD j.val "/0" ≠ tag) →
      ∃ slot : Int,
        (SceneManager.DefineObjectMaterials s).FindTextureSlot tag = .ok slot ∧ 0 ≤ slot := by
    intro k tag hk hkt hmin
    exact ⟨(k.val : Int), SceneManager.FindTextureSlot_of_table _ _ htab2 k
      (by rw [hcount2]; exact hk) tag hkt hmin, Int.natCast_nonneg _⟩
  have hcone := hslot ⟨0, by decide⟩ "cone" (by decide) (by decide) (by decide)
  have hcylinder := hslot ⟨1, by decide⟩ "cylinder" (by decide) (by decide) (by decide)
  have hplane := hslot ⟨2, by decide⟩ "plane" (by decide) (by decide) (by decide)
  have htape := hslot ⟨3, by decide⟩ "tape" (by decide) (by decide) (by decide)
  have hcardboard := hslot ⟨4, by decide⟩ "cardboard" (by decide) (by decide) (by decide)
  have hchapstick := hslot ⟨5, by decide⟩ "chapstick" (by decide) (by decide) (by decide)
  have hpen := hslot ⟨6, by decide⟩ "pen" (by decide) (by decide) (by decide)
  have hsolo := hslot ⟨7, by decide⟩ "solo" (by decide) (by decide) (by decide)
  have hbook := hslot ⟨8, by decide⟩ "book" (by decide) (by decide) (by decide)
  have hmat : ∀ tag ∈ ["wood", "cement", "blue_tape", "cardboard", "chapstick", "pen", "solo",
      "book"], ∃ m ∈ (SceneManager.DefineObjectMaterials s).m_objectMaterials, m.tag = tag := by
    intro tag htag
    simp only [List.mem_cons, List.mem_singleton, List.not_mem_nil, or_false] at htag
    rcases htag with rfl | rfl | rfl | rfl | rfl | rfl | rfl | rfl <;>
      simp [SceneManager.DefineObjectMaterials, hmats]
  refine ⟨s, gl', hrun, by omega, rfl, ?_⟩
  intro c hc
  simp only [SceneManager.RenderScene.placements, List.mem_cons, List.mem_singleton,
    List.not_mem_nil, or_false] at hc
  rcases hc with rfl | rfl | rfl | rfl | rfl | rfl | rfl | rfl | rfl | rfl | rfl | rfl | rfl |
    rfl | rfl | rfl | rfl | rfl
  · exact ⟨rfl, hmat _ (by simp), hplane⟩
  · exact ⟨rfl, hmat _ (by simp), hcylinder⟩
  · exact ⟨rfl, hmat _ (by simp), hcone⟩
  · exact ⟨rfl, hmat _ (by simp), hcone⟩
  · exact ⟨rfl, hmat _ (by simp), hcylinder⟩
  · exact ⟨rfl, hmat _ (by simp), hcone⟩
  · exact ⟨rfl, hmat _ (by simp), hcone⟩
  · exact ⟨rfl, hmat _ (by simp), hcylinder⟩
  · exact ⟨rfl, hmat _ (by simp), hcone⟩
  · exact ⟨rfl, hmat _ (by simp), hcylinder⟩
  · exact ⟨rfl, hmat _ (by simp), htape⟩
  · exact ⟨rfl, hmat _ (by simp), hcardboard⟩
  · exact ⟨rfl, hmat _ (by simp), hchapstick⟩
  · exact ⟨rfl, hmat _ (by simp), hpen⟩
  · exact ⟨rfl, hmat _ (by simp), hpen⟩
  · exact ⟨rfl, hmat _ (by simp), hpen⟩
  · exact ⟨rfl, hmat _ (by simp), hsolo⟩
  · exact ⟨rfl, hmat _ (by simp), hbook⟩

/-- Witness of C14: every file decodes to an image with 3 channels. -/
theorem C14_scene_placements_resolve_witness :
    (∀ f ∈ ["../../Utilities/textures/knife_handle.jpg",
        "../../Utilities/textures/seamless-wood3.jpg", "../../Utilities/textures/road.jpg",
        "../../Utilities/textures/blueTape.jpg", "../../Utilities/textures/cardboard.jpg",
        "../../Utilities/textures/drywall.jpg", "../../Utilities/textures/pen.jpg",
        "../../Utilities/textures/stainless.jpg", "../../Utilities/textures/napkinfinance.jpg"],
      ∃ image, decodeWith 3 f = some image ∧
        (image.colorChannels = 3 ∨ image.colorChannels = 4)) ∧
    ∃ (s : SceneManager ℚ) (gl' : GLState),
      SceneManager.LoadSceneTextures (decodeWith 3) (SceneManager.new true) (glWithNames 0) =
        .ok (s, gl') ∧
      (SceneManager.DefineObjectMaterials s).m_loadedTextures ≤ 16 ∧
      (SceneManager.RenderScene.placements : List (ObjectPlacement ℚ)).length = 18 ∧
      ∀ c ∈ (SceneManager.RenderScene.placements : List (ObjectPlacement ℚ)),
        c.useTexture = true ∧
        (∃ m ∈ (SceneManager.DefineObjectMaterials s).m_objectMaterials,
          m.tag = c.materialTag) ∧
        ∃ slot : Int,
          (SceneManager.DefineObjectMaterials s).FindTextureSlot c.textureTag = .ok slot ∧
          0 ≤ slot :=
  have hload : ∀ f ∈ ["../../Utilities/textures/knife_handle.jpg",
      "../../Utilities/textures/seamless-wood3.jpg", "../../Utilities/textures/road.jpg",
      "../../Utilities/textures/blueTape.jpg", "../../Utilities/textures/cardboard.jpg",
      "../../Utilities/textures/drywall.jpg", "../../Utilities/textures/pen.jpg",
      "../../Utilities/textures/stainless.jpg", "../../Utilities/textures/napkinfinance.jpg"],
      ∃ image, decodeWith 3 f = some image ∧
        (image.colorChannels = 3 ∨ image.colorChannels = 4) :=
    fun _ _ => ⟨⟨64, 64, 3⟩, rfl, Or.inl rfl⟩
  ⟨hload, C14_scene_placements_resolve (decodeWith 3) true (glWithNames 0) hload⟩

/-- C15: called with a registered material tag, a registered texture tag and
`useTexture = true` (with a shader manager and at most 16 textures), each of
the six `Render*` methods emits exactly, in this order: the upload of the model
matrix of `SetTransformations`; the uploads of the diffuse colour, specular
colour and shininess of the first-registered material with the tag;
`bUseTexture` set to 1 and the sampler set to `FindTextureSlot(textureTag)`;
then the draw call of its own shape.  The six sequences differ in the draw
call only. -/
theorem C15_Render_binding_sequence {α : Type} [Field α] (F : FloatOps α)
    (s : SceneManager α) (scale : vec3 α) (rotX rotY rotZ : α) (position : vec3 α)
    (materialTag textureTag : String) (uninit : OBJECT_MATERIAL α)
    (pipeline : List (PipelineOp α))
    (hsm : s.m_pShaderManager = true) (h16 : s.m_loadedTextures ≤ 16)
    (hmat : ∃ m ∈ s.m_objectMaterials, m.tag = materialTag)
    (htex : ∃ i : Fin 16, i.val < s.m_loadedTextures ∧ (s.m_textureIDs i).tag = textureTag) :
    ∃ (M : mat4 α) (i : Fin s.m_objectMaterials.length) (slot : Nat)
        (ops : List (PipelineOp α)),
      s.SetTransformations F scale rotX rotY rotZ position [] = [.setMat4Value "model" M] ∧
      (s.m_objectMaterials.get i).tag = materialTag ∧
      (∀ j : Fin s.m_objectMaterials.length, j.val < i.val →
        (s.m_objectMaterials.get j).tag ≠ materialTag) ∧
      slot < s.m_loadedTextures ∧ s.FindTextureSlot textureTag = .ok (slot : Int) ∧
      ops = [.setMat4Value "model" M,
        .setVec3Value "material.diffuseColor" (s.m_objectMaterials.get i).diffuseColor,
        .setVec3Value "material.specularColor" (s.m_objectMaterials.get i).specularColor,
        .setFloatValue "material.shininess" (s.m_objectMaterials.get i).shininess,
        .setIntValue "bUseTexture" 1,
        .setSampler2DValue "objectTexture" (slot : Int)] ∧
      s.RenderBox F scale rotX rotY rotZ position materialTag textureTag true uninit pipeline =
        .ok (pipeline ++ ops ++ [.DrawBoxMesh]) ∧
      s.RenderSphere F scale rotX rotY rotZ position materialTag textureTag true uninit
          pipeline = .ok (pipeline ++ ops ++ [.DrawSphereMesh]) ∧
      s.RenderCylinder F scale rotX rotY rotZ position materialTag textureTag true uninit
          pipeline = .ok (pipeline ++ ops ++ [.DrawCylinderMesh]) ∧
      s.RenderCone F scale rotX rotY rotZ position materialTag textureTag true uninit
          pipeline = .ok (pipeline ++ ops ++ [.DrawConeMesh]) ∧
      s.RenderTaperedCylinder F scale rotX rotY rotZ position materialTag textureTag true
          uninit pipeline = .ok (pipeline ++ ops ++ [.DrawTaperedCylinderMesh]) ∧
      s.RenderPlane F scale rotX rotY rotZ position materialTag textureTag true uninit
          pipeline = .ok (pipeline ++ ops ++ [.DrawPlaneMesh]) := by
  obtain ⟨M, hM⟩ := SceneManager.SetTransformations_ok F s scale rotX rotY rotZ position hsm
  obtain ⟨i, hti, hmin⟩ := SceneManager.first_material s materialTag hmat
  have hup := fun p => SceneManager.SetShaderMaterial_first s materialTag uninit p hsm i hti hmin
  have hfirst : ∃ k : Fin 16, k.val < s.m_loadedTextures ∧
      s.FindTextureSlot textureTag = .ok (k.val : Int) := by
    rcases SceneManager.first_or_none s textureTag with ⟨k, hk, ht, hkmin⟩ | hnone
    · exact ⟨k, hk, SceneManager.FindTextureSlot_first s textureTag k hk ht hkmin⟩
    · obtain ⟨k, hk, ht⟩ := htex
      exact absurd ht (hnone k hk)
  obtain ⟨k, hk, hslot⟩ := hfirst
  have htexop : ∀ p : List (PipelineOp α), s.SetShaderTexture textureTag p =
      .ok (p ++ [.setIntValue "bUseTexture" 1, .setSampler2DValue "objectTexture" (k.val : Int)]) := by
    intro p
    simp only [SceneManager.SetShaderTexture, hsm, if_true, hslot, g_UseTextureName,
      g_TextureValueName]
  refine ⟨M, i, k.val, _, by simpa using hM [], hti, hmin, hk, hslot, rfl, ?_, ?_, ?_, ?_, ?_, ?_⟩
  · simp [SceneManager.RenderBox, hM, hup, htexop]
  · simp [SceneManager.RenderSphere, hM, hup, htexop]
  · simp [SceneManager.RenderCylinder, hM, hup, htexop]
  · simp [SceneManager.RenderCone, hM, hup, htexop]
  · simp [SceneManager.RenderTaperedCylinder, hM, hup, htexop]
  · simp [SceneManager.RenderPlane, hM, hup, htexop]

/-- Witness of C15: on the scene of two textures with the materials of
`DefineObjectMaterials`, a cylinder of material "wood" and texture "cylinder". -/
theorem C15_Render_binding_sequence_witness :
    texturedScene.m_pShaderManager = true ∧ texturedScene.m_loadedTextures ≤ 16 ∧
      (∃ m ∈ texturedScene.m_objectMaterials, m.tag = "wood") ∧
      (∃ i : Fin 16, i.val < texturedScene.m_loadedTextures ∧
        (texturedScene.m_textureIDs i).tag = "cylinder") ∧
      ∃ (M : mat4 ℚ) (ops : List (PipelineOp ℚ)),
        texturedScene.FindTextureSlot "cylinder" = .ok 1 ∧
        ops = [.setMat4Value "model" M,
          .setVec3Value "material.diffuseColor" ⟨0.4, 0.25, 0.15⟩,
          .setVec3Value "material.specularColor" ⟨0.2, 0.2, 0.2⟩,
          .setFloatValue "material.shininess" 8.0,
          .setIntValue "bUseTexture" 1,
          .setSampler2DValue "objectTexture" 1] ∧
        texturedScene.RenderCylinder unrotatedOps ⟨5.0, 2.0, 5.0⟩ 0.0 0.0 0.0 ⟨-5.0, 0.0, -3.0⟩
          "wood" "cylinder" true blankMaterial [] = .ok ([] ++ ops ++ [.DrawCylinderMesh]) := by
  have hmat : ∃ m ∈ texturedScene.m_objectMaterials, m.tag = "wood" := by
    simp [texturedScene, SceneManager.DefineObjectMaterials, twoTextures]
  have htex : ∃ i : Fin 16, i.val < texturedScene.m_loadedTextures ∧
      (texturedScene.m_textureIDs i).tag = "cylinder" := ⟨⟨1, by decide⟩, by decide, rfl⟩
  obtain ⟨M, i, slot, ops, _, hti, hmin, _, hslot, hops, _, _, hcyl, _⟩ :=
    C15_Render_binding_sequence unrotatedOps texturedScene ⟨5.0, 2.0, 5.0⟩ 0.0 0.0 0.0
      ⟨-5.0, 0.0, -3.0⟩ "wood" "cylinder" blankMaterial [] rfl (by decide) hmat htex
  have hcylslot : texturedScene.FindTextureSlot "cylinder" = .ok 1 :=
    SceneManager.FindTextureSlot_first texturedScene "cylinder" ⟨1, by decide⟩ (by decide) rfl
      (by decide)
  have hs1 : (slot : Int) = 1 := by
    rw [hcylslot] at hslot
    exact (Except.ok.inj hslot).symm
  have hi0 : i = ⟨0, by decide⟩ := by
    apply Fin.ext
    by_contra hne
    have hpos : (0 : Nat) < i.val := Nat.pos_of_ne_zero hne
    exact hmin ⟨0, by decide⟩ hpos rfl
  subst hi0
  refine ⟨rfl, by decide, hmat, htex, M, ops, hcylslot, ?_, hcyl⟩
  rw [hops, hs1]
  rfl

end Scene
